import Mathlib

/-!
Shallow embedding of the DRM/KMS output backend of this repository
(src/backends/metal/video.rs and src/video/drm.rs), together with proofs
about the properties stated in the specification.

Modelling conventions:
- DRM object ids (crtc, connector, plane, property, blob, framebuffer) are
  plain naturals; the distinguished "none" value is 0, as in the source
  (drm_obj! in src/video/drm.rs).
- Interior-mutable cells (Cell, CloneCell, NumCell, RefCell) become plain
  record fields; stateful methods become functions returning updated records.
- Shared Rc references between hardware objects (crtc.possible_planes,
  connector.crtc, ...) are represented as id-based lookups into the
  authoritative per-device lists, exactly as the spec's design notes
  prescribe for reimplementations.
- Fallible ioctls (atomic commit, getblob) are inputs of the model: an
  environment record carries the kernel's response.
- A Rust panic or fatal abort is modelled by returning none from an
  Option-valued function.
-/

namespace Jay

/-- Mode timing structure. Embeds DrmModeInfo from src/video/drm.rs
(lines 579-597); the u32/u16 fields become naturals. -/
structure DrmModeInfo where
  clock : Nat
  hdisplay : Nat
  hsync_start : Nat
  hsync_end : Nat
  htotal : Nat
  hskew : Nat
  vdisplay : Nat
  vsync_start : Nat
  vsync_end : Nat
  vtotal : Nat
  vscan : Nat
  vrefresh : Nat
  flags : Nat
  ty : Nat
  name : String
deriving DecidableEq, Repr

/-- Structural mode equality. Embeds modes_equal from
src/backends/metal/video.rs (lines 1856-1870): every timing field is
compared; the type and name fields are not. -/
def modes_equal (a b : DrmModeInfo) : Bool :=
  a.clock == b.clock
    && a.hdisplay == b.hdisplay
    && a.hsync_start == b.hsync_start
    && a.hsync_end == b.hsync_end
    && a.htotal == b.htotal
    && a.hskew == b.hskew
    && a.vdisplay == b.vdisplay
    && a.vsync_start == b.vsync_start
    && a.vsync_end == b.vsync_end
    && a.vtotal == b.vtotal
    && a.vscan == b.vscan
    && a.vrefresh == b.vrefresh
    && a.flags == b.flags

/-- Connection status of a connector. Embeds ConnectorStatus from
src/video/drm.rs (lines 892-897). -/
inductive ConnectorStatus where
  | Connected
  | Disconnected
  | Unknown
  | Other (v : Nat)
deriving DecidableEq, Repr

/-- Plane kind. Embeds PlaneType from src/backends/metal/video.rs
(lines 501-506). -/
inductive PlaneType where
  | Overlay
  | Primary
  | Cursor
deriving DecidableEq, Repr

/-- A property id paired with its last-known cached value. Embeds
MutableProperty from src/backends/metal/video.rs (lines 854-858). -/
structure MutableProperty (α : Type) where
  id : Nat
  value : α
deriving DecidableEq, Repr

/-- Atomic change builder. Embeds Change from src/video/drm.rs
(lines 674-680): four parallel arrays handed to the atomic commit ioctl. -/
structure Change where
  objects : List Nat
  object_lengths : List Nat
  props : List Nat
  values : List Nat
deriving DecidableEq, Repr

/-- The empty change builder, as produced by DrmMaster::change. -/
def Change.empty : Change := ⟨[], [], [], []⟩

/-- Adds n to the last element of a list. Embeds the
object_lengths.last_mut().unwrap() += new update in Change::change_object;
the list is never empty at that call site. -/
def incLast (l : List Nat) (n : Nat) : List Nat :=
  match l with
  | [] => []
  | [x] => [x + n]
  | x :: xs => x :: incLast xs n

/-- Stages the property writes of one closure invocation for one object.
Embeds Change::change_object from src/video/drm.rs (lines 712-729).
The closure argument f is represented by the list of (property id, value)
pairs it pushes via ObjectChange::change (lines 732-737). -/
def Change.change_object (ch : Change) (obj : Nat) (pairs : List (Nat × Nat)) : Change :=
  let props' := ch.props ++ pairs.map Prod.fst
  let values' := ch.values ++ pairs.map Prod.snd
  if pairs.length > 0 then
    if ch.objects.getLast? = some obj then
      { objects := ch.objects
        object_lengths := incLast ch.object_lengths pairs.length
        props := props'
        values := values' }
    else
      { objects := ch.objects ++ [obj]
        object_lengths := ch.object_lengths ++ [pairs.length]
        props := props'
        values := values' }
  else
    { ch with props := props', values := values' }

/-- A change-builder session: a sequence of change_object calls starting
from the empty builder, as performed by the callers in
src/backends/metal/video.rs before they invoke Change::commit. -/
def runSession (calls : List (Nat × List (Nat × Nat))) : Change :=
  calls.foldl (fun ch c => ch.change_object c.1 c.2) Change.empty

/-- Shape invariant of a change builder: the four parallel arrays agree
as the atomic commit ioctl requires, and every staged group is nonempty. -/
def ChangeInv (ch : Change) : Prop :=
  ch.objects.length = ch.object_lengths.length
    ∧ ch.object_lengths.sum = ch.props.length
    ∧ ch.props.length = ch.values.length
    ∧ ∀ l ∈ ch.object_lengths, 0 < l

theorem incLast_length (l : List Nat) (n : Nat) : (incLast l n).length = l.length := by
  induction l with
  | nil => rfl
  | cons x xs ih =>
    cases xs with
    | nil => rfl
    | cons y ys => simpa [incLast] using ih

theorem incLast_sum (l : List Nat) (n : Nat) (h : l ≠ []) :
    (incLast l n).sum = l.sum + n := by
  induction l with
  | nil => exact absurd rfl h
  | cons x xs ih =>
    cases xs with
    | nil => simp [incLast]
    | cons y ys =>
      have := ih (by simp)
      simp only [incLast, List.sum_cons] at this ⊢
      omega

theorem incLast_pos (l : List Nat) (n : Nat) (h : ∀ x ∈ l, 0 < x) :
    ∀ x ∈ incLast l n, 0 < x := by
  induction l with
  | nil => intro x hx; simp [incLast] at hx
  | cons a as ih =>
    cases as with
    | nil =>
      intro x hx
      simp [incLast] at hx
      have := h a (by simp)
      omega
    | cons b bs =>
      intro x hx
      simp only [incLast, List.mem_cons] at hx
      rcases hx with rfl | hx
      · exact h x (by simp)
      · exact ih (fun y hy => h y (List.mem_cons_of_mem _ hy)) x hx

theorem change_object_inv (ch : Change) (obj : Nat) (pairs : List (Nat × Nat))
    (h : ChangeInv ch) : ChangeInv (ch.change_object obj pairs) := by
  obtain ⟨h1, h2, h3, h4⟩ := h
  unfold Change.change_object
  by_cases hp : pairs.length > 0
  · simp only [hp, if_true]
    by_cases hl : ch.objects.getLast? = some obj
    · simp only [hl, if_pos rfl]
      have hne : ch.objects ≠ [] := by
        intro hnil; rw [hnil] at hl; simp at hl
      have hlne : ch.object_lengths ≠ [] := by
        intro hnil
        apply hne
        have := h1
        rw [hnil] at this
        simpa using List.eq_nil_of_length_eq_zero (by simpa using this)
      refine ⟨?_, ?_, ?_, ?_⟩
      · simpa [incLast_length] using h1
      · simp [incLast_sum _ _ hlne, h2]
      · simp [h3]
      · exact incLast_pos _ _ h4
    · rw [if_neg hl]
      refine ⟨?_, ?_, ?_, ?_⟩
      · simp [h1]
      · simp [h2]
      · simp [h3]
      · intro l hlm
        rcases List.mem_append.mp hlm with hlm | hlm
        · exact h4 l hlm
        · have hl2 : l = pairs.length := by simpa using hlm
          subst hl2
          exact hp
  · simp only [hp, if_false]
    have hnil : pairs = [] := List.eq_nil_of_length_eq_zero (by omega)
    subst hnil
    exact ⟨h1, by simpa using h2, by simpa using h3, h4⟩

theorem runSession_inv_aux (calls : List (Nat × List (Nat × Nat))) (ch : Change)
    (h : ChangeInv ch) :
    ChangeInv (calls.foldl (fun ch c => ch.change_object c.1 c.2) ch) := by
  induction calls generalizing ch with
  | nil => exact h
  | cons c cs ih => exact ih _ (change_object_inv _ _ _ h)

theorem runSession_inv (calls : List (Nat × List (Nat × Nat))) :
    ChangeInv (runSession calls) :=
  runSession_inv_aux calls Change.empty ⟨rfl, rfl, rfl, by intro l h; simp [Change.empty] at h⟩

/-- C3 counterexample: a session that writes to object 1, then object 2,
then object 1 again produces a batch with three per-object groups but only
two distinct object ids, so the number of distinct object ids does not
equal the number of groups passed to the atomic commit call. -/
theorem change_builder_distinct_ids_counterexample :
    ¬ ((runSession [(1, [(10, 5)]), (2, [(11, 6)]), (1, [(12, 7)])]).objects.dedup.length
        = (runSession [(1, [(10, 5)]), (2, [(11, 6)]), (1, [(12, 7)])]).objects.length) := by
  decide

/-- C3 (amended): for every change-builder session, the number of group
entries in the final batch equals the number of per-object groups passed to
the atomic commit call (the object-id and group-length arrays have equal
length), the per-object property counts (object_lengths) sum to the total
number of (property, value) pairs in the batch, and the number of distinct
object ids is at most (not necessarily equal to) the number of groups. -/
theorem change_builder_batch_shape (calls : List (Nat × List (Nat × Nat))) :
    (runSession calls).objects.length = (runSession calls).object_lengths.length
      ∧ (runSession calls).object_lengths.sum = (runSession calls).props.length
      ∧ (runSession calls).props.length = (runSession calls).values.length
      ∧ (runSession calls).objects.dedup.length ≤ (runSession calls).objects.length := by
  obtain ⟨h1, h2, h3, _⟩ := runSession_inv calls
  exact ⟨h1, h2, h3, List.Sublist.length_le (List.dedup_sublist _)⟩

/-- C10: a change_object call whose closure stages no property writes
appends no group (the object-id, group-length, property-id and value arrays
are all left unchanged), and consequently every group in a committed batch
contains at least one property write. -/
theorem change_object_no_empty_groups :
    (∀ (ch : Change) (obj : Nat), ch.change_object obj [] = ch)
      ∧ (∀ (calls : List (Nat × List (Nat × Nat))),
          ∀ l ∈ (runSession calls).object_lengths, 0 < l) := by
  constructor
  · intro ch obj
    simp [Change.change_object]
  · intro calls l hl
    exact (runSession_inv calls).2.2.2 l hl

/-- C10 witness: the invariant applied to a concrete session. -/
theorem change_object_no_empty_groups_witness :
    Change.empty.change_object 5 [] = Change.empty ∧ 0 < 1 :=
  ⟨change_object_no_empty_groups.1 Change.empty 5,
    change_object_no_empty_groups.2 [(1, [(2, 3)])] 1 (by decide)⟩

/-- Fourcc pixel-format code, from fourcc_code in src/format.rs (line 53). -/
def fourcc_code (a b c d : Nat) : Nat := a + b * 2 ^ 8 + c * 2 ^ 16 + d * 2 ^ 24

/-- The drm code of the opaque 32-bit format XRGB8888 (fourcc XR24),
from src/format.rs (line 72). -/
def XRGB8888_DRM : Nat := fourcc_code 88 82 50 52

/-- The drm code of the alpha-capable format ARGB8888 (fourcc AR24),
from src/format.rs (line 69). -/
def ARGB8888_DRM : Nat := fourcc_code 65 82 50 52

/-- The errno for permission denied, used by present() to recognize loss
of DRM-master privilege (c::EACCES). -/
def EACCES : Nat := 13

/-- Errors of the drm layer; only the shape present() inspects is kept:
DrmError::Atomic(OsError(errno)) versus everything else
(src/backends/metal/video.rs lines 418-423). -/
inductive DrmError where
  | Atomic (errno : Nat)
  | Generic
deriving DecidableEq, Repr

/-- Errors of the metal backend that the embedded functions produce or
propagate (the relevant constructors of MetalError). -/
inductive MetalError where
  | NoCrtcForConnector
  | NoModeForConnector
  | NoPrimaryPlaneForConnector
  | ScanoutBuffer
  | Framebuffer
  | ImportImage
  | ImportFb
  | ImportTexture
  | Modeset (e : DrmError)
deriving DecidableEq, Repr

/-- The Rust cast from i32 to u64 (sign extension then reinterpretation),
used when staging i32 property values such as the cursor position. -/
def u64_of_i32 (x : Int) : Nat := (x.emod (2 ^ 64)).toNat

/-- One scanout buffer. Embeds RenderBuffer from src/backends/metal/video.rs
(lines 1831-1846): the registered kernel framebuffer id (drm), the size of
the render texture, and whether a cross-device bridge texture (dev_tex)
exists. The GPU objects themselves are opaque to the claims. -/
structure RenderBuffer where
  drm_id : Nat
  tex_width : Int
  tex_height : Int
  has_dev_tex : Bool
deriving DecidableEq, Repr

/-- One plane. Embeds MetalPlane from src/backends/metal/video.rs
(lines 508-531); the property cache keeps the fields the claims touch. -/
structure MetalPlane where
  id : Nat
  ty : PlaneType
  possible_crtcs : Nat
  formats : List Nat
  assigned : Bool
  crtc_id : MutableProperty Nat
  crtc_x : MutableProperty Int
  crtc_y : MutableProperty Int
  crtc_w : MutableProperty Int
  crtc_h : MutableProperty Int
  src_x : MutableProperty Nat
  src_y : MutableProperty Nat
  src_w : MutableProperty Nat
  src_h : MutableProperty Nat
  in_fence_fd : Nat
  fb_id : Nat
deriving DecidableEq, Repr

/-- One crtc. Embeds MetalCrtc from src/backends/metal/video.rs
(lines 478-493). The possible_planes map and the connector back-reference
become id-based lookups into the authoritative device lists. -/
structure MetalCrtc where
  id : Nat
  idx : Nat
  possible_planes : List Nat
  connector : Option Nat
  active : MutableProperty Bool
  mode_id : MutableProperty Nat
  out_fence_ptr : Nat
deriving DecidableEq, Repr

/-- Display data of a connector. Embeds ConnectorDisplayData from
src/backends/metal/video.rs (lines 124-143); the reachable crtcs become
ids. The subpixel and connector_type fields, which only feed events and
log output, are omitted. -/
structure ConnectorDisplayData where
  crtc_id : MutableProperty Nat
  crtcs : List Nat
  modes : List DrmModeInfo
  mode : Option DrmModeInfo
  refresh : Nat
  monitor_manufacturer : String
  monitor_name : String
  monitor_serial_number : String
  connection : ConnectorStatus
  mm_width : Nat
  mm_height : Nat
deriving DecidableEq, Repr

/-- Monitor identity comparison. Embeds ConnectorDisplayData::is_same_monitor
from src/backends/metal/video.rs (lines 146-151). -/
def ConnectorDisplayData.is_same_monitor (a b : ConnectorDisplayData) : Bool :=
  a.monitor_manufacturer == b.monitor_manufacturer
    && a.monitor_name == b.monitor_name
    && a.monitor_serial_number == b.monitor_serial_number

/-- One connector. Embeds MetalConnector from src/backends/metal/video.rs
(lines 153-197); the Rc references to the crtc and the planes become ids. -/
structure MetalConnector where
  id : Nat
  enabled : Bool
  can_present : Bool
  has_damage : Bool
  cursor_changed : Bool
  display : ConnectorDisplayData
  connect_sent : Bool
  primary_plane : Option Nat
  cursor_plane : Option Nat
  crtc : Option Nat
  buffers : Option (RenderBuffer × RenderBuffer)
  next_buffer : Nat
  cursor_generation : Nat
  cursor_x : Int
  cursor_y : Int
  cursor_enabled : Bool
  cursor_buffers : Option (RenderBuffer × RenderBuffer)
  cursor_front_buffer : Nat
  cursor_swap_buffer : Bool
deriving DecidableEq, Repr

/-- One hardware-cursor capability object. Embeds MetalHardwareCursor from
src/backends/metal/video.rs (lines 199-209); the connector back-reference
is passed explicitly to the operations. -/
structure MetalHardwareCursor where
  generation : Nat
  cursor_swap_buffer : Bool
  cursor_enabled_pending : Bool
  cursor_x_pending : Int
  cursor_y_pending : Int
  cursor_buffers : RenderBuffer × RenderBuffer
  have_changes : Bool
deriving DecidableEq, Repr

/-- Device-wide hardware inventory. Embeds the parts of MetalDrmDevice
(src/backends/metal/video.rs lines 59-78) the claims touch. -/
structure MetalDrmDevice where
  crtcs : List MetalCrtc
  planes : List MetalPlane
  cursor_width : Nat
  cursor_height : Nat
deriving DecidableEq, Repr

/-- The device together with its connectors, as in MetalDrmDeviceData
(src/backends/metal/video.rs lines 116-122). -/
structure MetalDrmDeviceData where
  dev : MetalDrmDevice
  connectors : List MetalConnector
deriving DecidableEq, Repr

/-- Id-based lookup standing in for the crtcs hash map / Rc sharing. -/
def MetalDrmDevice.findCrtc (d : MetalDrmDevice) (i : Nat) : Option MetalCrtc :=
  d.crtcs.find? (fun c => c.id == i)

/-- Id-based lookup standing in for the planes hash map / Rc sharing. -/
def MetalDrmDevice.findPlane (d : MetalDrmDevice) (i : Nat) : Option MetalPlane :=
  d.planes.find? (fun p => p.id == i)

/-- Responses of the kernel and of the render context to the calls a
modelled function makes: the blob store (getblob), the outcome of the one
atomic commit the function issues (none meaning success), the presence of
a render context, whether that context was reset, and the outcome of
scanout-buffer-pair allocation keyed by format, size and cursor flag. -/
structure KernelEnv where
  getblob : Nat → Option DrmModeInfo
  commit : Option DrmError
  has_render_ctx : Bool
  reset_status : Bool
  alloc : Nat → Int → Int → Bool → Except MetalError (RenderBuffer × RenderBuffer)

/-- Events a connector reports to the external listener, from the
ConnectorEvent variants used in src/backends/metal/video.rs. The
hardware-cursor event records whether a cursor object was advertised. -/
inductive ConnectorEvent where
  | Connected
  | Disconnected
  | Removed
  | HardwareCursor (advertised : Bool)
deriving DecidableEq, Repr

/-- Modelled from the spec: NumCell::fetch_add of src/utils/numcell.rs is
not among the sources. The spec treats the per-connector generation and
double-buffer counters as monotonically increasing naturals ("generation
counters are monotonically increasing", "front index advances by +1"), so
fetch_add is plain addition returning the old value. -/
def fetch_add (v n : Nat) : Nat × Nat := (v, v + n)

/-- Embeds MetalHardwareCursor::swap_buffer from src/backends/metal/video.rs
(lines 229-232). -/
def MetalHardwareCursor.swap_buffer (hc : MetalHardwareCursor) : MetalHardwareCursor :=
  { hc with cursor_swap_buffer := true, have_changes := true }

/-- The buffer index MetalHardwareCursor::get_buffer reads, from
src/backends/metal/video.rs (line 219): (cursor_front_buffer + 1) % 2. -/
def MetalHardwareCursor.get_buffer_index (c : MetalConnector) : Nat :=
  (c.cursor_front_buffer + 1) % 2

/-- Embeds MetalHardwareCursor::get_buffer (lines 218-221): the render
target handed to the caller is the buffer at get_buffer_index. -/
def MetalHardwareCursor.get_buffer (hc : MetalHardwareCursor) (c : MetalConnector) :
    RenderBuffer :=
  if MetalHardwareCursor.get_buffer_index c = 0 then hc.cursor_buffers.1
  else hc.cursor_buffers.2

/-- Embeds MetalHardwareCursor::commit from src/backends/metal/video.rs
(lines 234-253). Returns the updated cursor object, the updated connector,
and whether a present was scheduled. -/
def MetalHardwareCursor.commit (hc : MetalHardwareCursor) (c : MetalConnector) :
    MetalHardwareCursor × MetalConnector × Bool :=
  if hc.generation ≠ c.cursor_generation then (hc, c, false)
  else if hc.have_changes = false then (hc, c, false)
  else
    let hc1 := { hc with have_changes := false }
    let c1 := { c with
      cursor_enabled := hc.cursor_enabled_pending
      cursor_x := hc.cursor_x_pending
      cursor_y := hc.cursor_y_pending }
    let p :=
      if hc1.cursor_swap_buffer then
        ({ hc1 with cursor_swap_buffer := false }, { c1 with cursor_swap_buffer := true })
      else (hc1, c1)
    let c2 := { p.2 with cursor_changed := true }
    (p.1, c2, c2.can_present)

/-- Embeds MetalConnector::send_hardware_cursor from
src/backends/metal/video.rs (lines 295-314): when the connector has
announced itself, the generation counter advances by one and the new
generation is carried by the advertised object (if cursor buffers exist). -/
def MetalConnector.send_hardware_cursor (c : MetalConnector) :
    MetalConnector × List ConnectorEvent × Option MetalHardwareCursor :=
  if c.connect_sent = false then (c, [], none)
  else
    let generation := (fetch_add c.cursor_generation 1).2
    let c' := { c with cursor_generation := generation }
    match c.cursor_buffers with
    | some cp =>
        let hc : MetalHardwareCursor := {
          generation := generation
          cursor_swap_buffer := false
          cursor_enabled_pending := c.cursor_enabled
          cursor_x_pending := c.cursor_x
          cursor_y_pending := c.cursor_y
          cursor_buffers := cp
          have_changes := false }
        (c', [ConnectorEvent.HardwareCursor true], some hc)
    | none => (c', [ConnectorEvent.HardwareCursor false], none)

/-- The generations of the hardware-cursor objects advertised by a series
of send_hardware_cursor calls, with arbitrary connector updates g
interleaved before each call (modelling the other operations that may run
between two advertisements). -/
def advertisedGens (c : MetalConnector) :
    List (MetalConnector → MetalConnector) → List Nat
  | [] => []
  | g :: gs =>
      let c' := g c
      let r := c'.send_hardware_cursor
      match r.2.2 with
      | some hc => hc.generation :: advertisedGens r.1 gs
      | none => advertisedGens r.1 gs

theorem advertisedGens_lb (gs : List (MetalConnector → MetalConnector))
    (c : MetalConnector)
    (hg : ∀ g ∈ gs, ∀ x, ((g x).cursor_generation = x.cursor_generation)) :
    ∀ a ∈ advertisedGens c gs, c.cursor_generation < a := by
  induction gs generalizing c with
  | nil => intro a ha; simp [advertisedGens] at ha
  | cons g gs ih =>
    intro a ha
    have hgen : (g c).cursor_generation = c.cursor_generation := hg g (by simp) c
    have hrest : ∀ g' ∈ gs, ∀ x, ((g' x).cursor_generation = x.cursor_generation) :=
      fun g' h' => hg g' (List.mem_cons_of_mem _ h')
    simp only [advertisedGens] at ha
    cases hcs : (g c).connect_sent with
    | false =>
      simp only [MetalConnector.send_hardware_cursor, hcs] at ha
      simp at ha
      have := ih (g c) hrest a ha
      omega
    | true =>
      cases hb : (g c).cursor_buffers with
      | none =>
        simp only [MetalConnector.send_hardware_cursor, hcs, hb, fetch_add] at ha
        simp at ha
        have h2 := ih _ hrest a ha
        simp only [] at h2
        omega
      | some cp =>
        simp only [MetalConnector.send_hardware_cursor, hcs, hb, fetch_add] at ha
        simp at ha
        rcases ha with rfl | ha
        · omega
        · have h2 := ih _ hrest a ha
          simp only [] at h2
          omega

theorem advertisedGens_chain (gs : List (MetalConnector → MetalConnector))
    (c : MetalConnector)
    (hg : ∀ g ∈ gs, ∀ x, ((g x).cursor_generation = x.cursor_generation)) :
    List.Chain' (· < ·) (advertisedGens c gs) := by
  induction gs generalizing c with
  | nil => simp [advertisedGens]
  | cons g gs ih =>
    have hgen : (g c).cursor_generation = c.cursor_generation := hg g (by simp) c
    have hrest : ∀ g' ∈ gs, ∀ x, ((g' x).cursor_generation = x.cursor_generation) :=
      fun g' h' => hg g' (List.mem_cons_of_mem _ h')
    simp only [advertisedGens]
    cases hcs : (g c).connect_sent with
    | false =>
      simp only [MetalConnector.send_hardware_cursor, hcs]
      simp
      exact ih (g c) hrest
    | true =>
      cases hb : (g c).cursor_buffers with
      | none =>
        simp only [MetalConnector.send_hardware_cursor, hcs, hb, fetch_add]
        simp
        exact ih _ hrest
      | some cp =>
        simp only [MetalConnector.send_hardware_cursor, hcs, hb, fetch_add]
        simp only [Bool.true_eq_false, if_false, List.chain'_cons']
        refine ⟨?_, ih _ hrest⟩
        intro y hy
        have hmem := List.mem_of_mem_head? hy
        have h2 := advertisedGens_lb gs _ hrest y hmem
        simp only [] at h2
        omega

/-- A concrete display-data record used by the witnesses. -/
def ddEx : ConnectorDisplayData :=
  { crtc_id := ⟨40, 0⟩
    crtcs := []
    modes := []
    mode := none
    refresh := 0
    monitor_manufacturer := "AAA"
    monitor_name := "Monitor"
    monitor_serial_number := "123"
    connection := ConnectorStatus.Connected
    mm_width := 600
    mm_height := 340 }

/-- A concrete scanout buffer used by the witnesses. -/
def bufEx : RenderBuffer := ⟨10, 64, 64, false⟩

/-- A second concrete scanout buffer used by the witnesses. -/
def bufEx2 : RenderBuffer := ⟨11, 64, 64, false⟩

/-- A concrete connector used by the witnesses. -/
def connEx : MetalConnector :=
  { id := 30
    enabled := true
    can_present := true
    has_damage := false
    cursor_changed := false
    display := ddEx
    connect_sent := true
    primary_plane := none
    cursor_plane := none
    crtc := none
    buffers := none
    next_buffer := 0
    cursor_generation := 7
    cursor_x := 0
    cursor_y := 0
    cursor_enabled := false
    cursor_buffers := some (bufEx, bufEx2)
    cursor_front_buffer := 0
    cursor_swap_buffer := false }

/-- A concrete hardware-cursor object whose generation (5) is stale with
respect to connEx (generation 7). -/
def hcEx : MetalHardwareCursor :=
  { generation := 5
    cursor_swap_buffer := false
    cursor_enabled_pending := true
    cursor_x_pending := 3
    cursor_y_pending := 4
    cursor_buffers := (bufEx, bufEx2)
    have_changes := true }

/-- C4: a hardware-cursor commit whose generation differs from the
connector's current cursor generation leaves the connector — in particular
cursor_enabled, cursor_x, cursor_y, cursor_swap_buffer and cursor_changed —
entirely unchanged and schedules no present; and the generations of the
hardware-cursor objects successively advertised for a connector are
strictly increasing, whatever generation-preserving operations run in
between the advertisements. -/
theorem hardware_cursor_stale_noop_and_generation_monotone :
    (∀ (hc : MetalHardwareCursor) (c : MetalConnector),
        hc.generation ≠ c.cursor_generation → hc.commit c = (hc, c, false))
      ∧ (∀ (c : MetalConnector) (gs : List (MetalConnector → MetalConnector)),
          (∀ g ∈ gs, ∀ x, ((g x).cursor_generation = x.cursor_generation)) →
          List.Chain' (· < ·) (advertisedGens c gs)) := by
  constructor
  · intro hc c h
    simp [MetalHardwareCursor.commit, h]
  · exact fun c gs hg => advertisedGens_chain gs c hg

/-- C4 witness: the stale commit at generation 5 against a connector at
generation 7 is a no-op, and two consecutive advertisements yield strictly
increasing generations. -/
theorem hardware_cursor_stale_noop_witness :
    hcEx.commit connEx = (hcEx, connEx, false)
      ∧ List.Chain' (· < ·) (advertisedGens connEx [id, id]) :=
  ⟨hardware_cursor_stale_noop_and_generation_monotone.1 hcEx connEx (by decide),
    hardware_cursor_stale_noop_and_generation_monotone.2 connEx [id, id]
      (by intro g hg x; simp at hg; subst hg; rfl)⟩

/-- Level of the log message present() emits when its atomic commit fails
(src/backends/metal/video.rs lines 417-423). -/
inductive LogLevel where
  | debug
  | error
deriving DecidableEq, Repr

/-- Embeds MetalBackend::check_render_context from
src/backends/metal/video.rs (lines 880-893): false when no render context
is set; a reset render context aborts the process (none). -/
def check_render_context (env : KernelEnv) : Option Bool :=
  if env.has_render_ctx = false then some false
  else if env.reset_status then none
  else some true

/-- Indexing of a front/back buffer pair; the caller passes an index
already reduced mod 2 (buffers.len() is 2 in the source). -/
def bufAt (bp : RenderBuffer × RenderBuffer) (i : Nat) : RenderBuffer :=
  if i = 0 then bp.1 else bp.2

/-- The outcome of the one atomic commit present() issues, from
src/backends/metal/video.rs (lines 417-428): on success the can_present,
has_damage and cursor_changed flags are cleared; on failure the connector
is untouched and a message is logged — at debug level when the error is
EACCES (loss of DRM-master), at error level otherwise. -/
def presentCommit (env : KernelEnv) (c : MetalConnector) (ch : Change) :
    MetalConnector × Change × Option LogLevel :=
  match env.commit with
  | some (DrmError.Atomic errno) =>
      if errno = EACCES then (c, ch, some LogLevel.debug)
      else (c, ch, some LogLevel.error)
  | some DrmError.Generic => (c, ch, some LogLevel.error)
  | none =>
      ({ c with can_present := false, has_damage := false, cursor_changed := false },
        ch, none)

/-- The cursor branch of present(), from src/backends/metal/video.rs
(lines 384-415). When the cursor changed and a cursor plane exists: with
the cursor enabled, a pending buffer swap advances the front index and the
front buffer's framebuffer and geometry are staged; with the cursor
disabled, framebuffer-id 0 and crtc-id 0 are staged to turn the plane off.
none models the cursor_buffers unwrap panic (unreachable in the source). -/
def presentCursor (dev : MetalDrmDevice) (c : MetalConnector) (crtc : MetalCrtc)
    (ch : Change) : Option (MetalConnector × Change) :=
  if c.cursor_changed = false then some (c, ch)
  else
    match c.cursor_plane with
    | none => some (c, ch)
    | some cpId =>
      match dev.findPlane cpId with
      | none => none
      | some plane =>
        if c.cursor_enabled then
          let swap := c.cursor_swap_buffer
          let c1 := { c with cursor_swap_buffer := false }
          let c2 :=
            if swap then
              { c1 with cursor_front_buffer := (fetch_add c1.cursor_front_buffer 1).2 }
            else c1
          match c2.cursor_buffers with
          | none => none
          | some buffers =>
            let buffer := bufAt buffers (c2.cursor_front_buffer % 2)
            let ch' := ch.change_object plane.id
              [(plane.fb_id, buffer.drm_id),
               (plane.crtc_id.id, crtc.id),
               (plane.crtc_x.id, u64_of_i32 c.cursor_x),
               (plane.crtc_y.id, u64_of_i32 c.cursor_y),
               (plane.crtc_w.id, u64_of_i32 buffer.tex_width),
               (plane.crtc_h.id, u64_of_i32 buffer.tex_height),
               (plane.src_x.id, 0),
               (plane.src_y.id, 0),
               (plane.src_w.id, u64_of_i32 buffer.tex_width * 2 ^ 16 % 2 ^ 64),
               (plane.src_h.id, u64_of_i32 buffer.tex_height * 2 ^ 16 % 2 ^ 64)]
            some (c2, ch')
        else
          some (c, ch.change_object plane.id
            [(plane.fb_id, 0), (plane.crtc_id.id, 0)])

/-- The damage branch and commit of present(), from
src/backends/metal/video.rs (lines 354-428), after the early-return guards
have passed. The rendering itself (render, copy_texture, screencopies,
frame requests) has no effect on the modelled state beyond the staged
framebuffer id. -/
def presentBody (env : KernelEnv) (dev : MetalDrmDevice) (c : MetalConnector)
    (crtc : MetalCrtc) (plane : MetalPlane) (buffers : RenderBuffer × RenderBuffer) :
    Option (MetalConnector × Change × Option LogLevel) :=
  let step1 : Option (Option (MetalConnector × Change)) :=
    if c.has_damage then
      match check_render_context env with
      | none => none
      | some false => some none
      | some true =>
          let fa := fetch_add c.next_buffer 1
          let buffer := bufAt buffers (fa.1 % 2)
          let c1 := { c with next_buffer := fa.2 }
          let ch := Change.empty.change_object plane.id [(plane.fb_id, buffer.drm_id)]
          some (some (c1, ch))
    else some (some (c, Change.empty))
  match step1 with
  | none => none
  | some none => some (c, Change.empty, none)
  | some (some (c1, ch1)) =>
    match presentCursor dev c1 crtc ch1 with
    | none => none
    | some (c2, ch2) => some (presentCommit env c2 ch2)

/-- Embeds MetalConnector::present from src/backends/metal/video.rs
(lines 334-429). The early returns (no crtc, nothing pending or a commit
outstanding, inactive crtc, no primary plane, no buffers) leave the
connector untouched; none models a panic or abort (unreachable dangling
references, a reset render context). -/
def MetalConnector.present (c : MetalConnector) (env : KernelEnv)
    (dev : MetalDrmDevice) : Option (MetalConnector × Change × Option LogLevel) :=
  match c.crtc with
  | none => some (c, Change.empty, none)
  | some crtcId =>
    match dev.findCrtc crtcId with
    | none => none
    | some crtc =>
      if (c.has_damage = false ∧ c.cursor_changed = false) ∨ c.can_present = false then
        some (c, Change.empty, none)
      else if crtc.active.value = false then
        some (c, Change.empty, none)
      else
        match c.primary_plane with
        | none => some (c, Change.empty, none)
        | some planeId =>
          match dev.findPlane planeId with
          | none => none
          | some plane =>
            match c.buffers with
            | none => some (c, Change.empty, none)
            | some buffers => presentBody env dev c crtc plane buffers

theorem presentCursor_ne_none (dev : MetalDrmDevice) (c : MetalConnector)
    (crtc : MetalCrtc) (ch : Change)
    (hcw : ∀ q, c.cursor_plane = some q → (dev.findPlane q).isSome = true)
    (hcb : c.cursor_enabled = true → (c.cursor_buffers).isSome = true) :
    presentCursor dev c crtc ch ≠ none := by
  by_cases h1 : c.cursor_changed = false
  · simp [presentCursor, h1]
  · cases h2 : c.cursor_plane with
    | none => simp [presentCursor, h1, h2]
    | some q =>
      have hq := hcw q h2
      cases h3 : dev.findPlane q with
      | none => rw [h3] at hq; simp at hq
      | some plane =>
        cases h4 : c.cursor_enabled with
        | false => simp [presentCursor, h1, h2, h3, h4]
        | true =>
          have hb := hcb h4
          cases h5 : c.cursor_buffers with
          | none => rw [h5] at hb; simp at hb
          | some buffers =>
            cases h6 : c.cursor_swap_buffer with
            | false => simp [presentCursor, h1, h2, h3, h4, h5, h6]
            | true => simp [presentCursor, h1, h2, h3, h4, h5, h6]

theorem presentCursor_flags (dev : MetalDrmDevice) (c : MetalConnector)
    (crtc : MetalCrtc) (ch : Change) {c2 : MetalConnector} {ch2 : Change}
    (h : presentCursor dev c crtc ch = some (c2, ch2)) :
    c2.has_damage = c.has_damage ∧ c2.cursor_changed = c.cursor_changed
      ∧ c2.can_present = c.can_present ∧ c2.cursor_enabled = c.cursor_enabled
      ∧ c2.cursor_plane = c.cursor_plane ∧ c2.cursor_buffers = c.cursor_buffers
      ∧ c2.crtc = c.crtc ∧ c2.primary_plane = c.primary_plane
      ∧ c2.buffers = c.buffers ∧ c2.cursor_generation = c.cursor_generation := by
  by_cases h1 : c.cursor_changed = false
  · simp only [presentCursor, h1] at h
    simp at h
    obtain ⟨rfl, rfl⟩ := h
    exact ⟨rfl, rfl, rfl, rfl, rfl, rfl, rfl, rfl, rfl, rfl⟩
  · have h1' : c.cursor_changed = true := by simpa using h1
    cases h2 : c.cursor_plane with
    | none =>
      simp [presentCursor, h1, h2] at h
      obtain ⟨rfl, rfl⟩ := h
      exact ⟨rfl, rfl, rfl, rfl, h2, rfl, rfl, rfl, rfl, rfl⟩
    | some q =>
      cases h3 : dev.findPlane q with
      | none => simp [presentCursor, h1, h2, h3] at h
      | some plane =>
        cases h4 : c.cursor_enabled with
        | false =>
          simp [presentCursor, h1, h2, h3, h4] at h
          obtain ⟨rfl, rfl⟩ := h
          exact ⟨rfl, rfl, rfl, h4, h2, rfl, rfl, rfl, rfl, rfl⟩
        | true =>
          cases h5 : c.cursor_buffers with
          | none =>
            cases h6 : c.cursor_swap_buffer with
            | false => simp [presentCursor, h1, h2, h3, h4, h5, h6] at h
            | true => simp [presentCursor, h1, h2, h3, h4, h5, h6] at h
          | some buffers =>
            cases h6 : c.cursor_swap_buffer with
            | false =>
              simp [presentCursor, h1, h2, h3, h4, h5, h6, fetch_add] at h
              obtain ⟨rfl, rfl⟩ := h
              exact ⟨rfl, h1'.symm, rfl, rfl, rfl, rfl, rfl, rfl, rfl, rfl⟩
            | true =>
              simp [presentCursor, h1, h2, h3, h4, h5, h6, fetch_add] at h
              obtain ⟨rfl, rfl⟩ := h
              exact ⟨rfl, h1'.symm, rfl, rfl, rfl, rfl, rfl, rfl, rfl, rfl⟩

theorem presentCommit_spec (env : KernelEnv) (c : MetalConnector) (ch : Change) :
    (env.commit ≠ none → (presentCommit env c ch).1 = c)
      ∧ (env.commit = some (DrmError.Atomic EACCES) →
          (presentCommit env c ch).2.2 = some LogLevel.debug)
      ∧ (∀ e, env.commit = some e → e ≠ DrmError.Atomic EACCES →
          (presentCommit env c ch).2.2 = some LogLevel.error)
      ∧ (env.commit = none →
          (presentCommit env c ch).1
              = { c with can_present := false, has_damage := false, cursor_changed := false }
            ∧ (presentCommit env c ch).2.2 = none) := by
  rcases hc : env.commit with _ | e
  · simp [presentCommit, hc]
  · rcases e with errno | _
    · by_cases he : errno = EACCES
      · subst he
        refine ⟨fun _ => by simp [presentCommit, hc], fun _ => by simp [presentCommit, hc],
          ?_, fun h => absurd h (by simp)⟩
        intro e' he' hne
        exact absurd (by injection he' with h2; exact h2.symm) hne
      · refine ⟨fun _ => by simp [presentCommit, hc, he],
          fun h => ?_, ?_, fun h => absurd h (by simp)⟩
        · simp at h
          exact absurd h he
        · intro e' he' hne
          simp [presentCommit, hc, he]
    · refine ⟨fun _ => by simp [presentCommit, hc], fun h => ?_, ?_,
        fun h => absurd h (by simp)⟩
      · exact absurd h (by simp)
      · intro e' he' hne
        simp [presentCommit, hc]

/-- What present() guarantees about its result state and log output as a
function of the commit outcome: on failure the damage and cursor flags are
unchanged and can_present remains true, with the log level determined by
whether the error is EACCES; on success all three flags are cleared. -/
def PresentOutcome (env : KernelEnv) (c c' : MetalConnector)
    (lg : Option LogLevel) : Prop :=
  (env.commit ≠ none → c'.has_damage = c.has_damage
      ∧ c'.cursor_changed = c.cursor_changed ∧ c'.can_present = true)
    ∧ (env.commit = some (DrmError.Atomic EACCES) → lg = some LogLevel.debug)
    ∧ (∀ e, env.commit = some e → e ≠ DrmError.Atomic EACCES →
        lg = some LogLevel.error)
    ∧ (env.commit = none → c'.can_present = false ∧ c'.has_damage = false
        ∧ c'.cursor_changed = false ∧ lg = none)

theorem presentTail_spec (env : KernelEnv) (dev : MetalDrmDevice)
    (c0 c1 : MetalConnector) (crtc : MetalCrtc) (ch1 : Change)
    (hcw1 : ∀ q, c1.cursor_plane = some q → (dev.findPlane q).isSome = true)
    (hcb1 : c1.cursor_enabled = true → (c1.cursor_buffers).isSome = true)
    (hhd : c1.has_damage = c0.has_damage) (hcc : c1.cursor_changed = c0.cursor_changed)
    (hcp : c1.can_present = c0.can_present) (hcan0 : c0.can_present = true) :
    ∃ c' ch lg, (match presentCursor dev c1 crtc ch1 with
        | none => none
        | some (c2, ch2) => some (presentCommit env c2 ch2))
          = some (c', ch, lg)
      ∧ PresentOutcome env c0 c' lg := by
  cases hres : presentCursor dev c1 crtc ch1 with
  | none => exact absurd hres (presentCursor_ne_none dev c1 crtc ch1 hcw1 hcb1)
  | some r =>
    have hfl := presentCursor_flags dev c1 crtc ch1
      (show presentCursor dev c1 crtc ch1 = some (r.1, r.2) from hres)
    obtain ⟨hfl1, hfl2, hfl3, -⟩ := hfl
    have hcs := presentCommit_spec env r.1 r.2
    refine ⟨(presentCommit env r.1 r.2).1, (presentCommit env r.1 r.2).2.1,
      (presentCommit env r.1 r.2).2.2, rfl, ?_, ?_, ?_, ?_⟩
    · intro hne
      rw [hcs.1 hne]
      exact ⟨hfl1.trans hhd, hfl2.trans hcc, (hfl3.trans hcp).trans hcan0⟩
    · exact hcs.2.1
    · exact hcs.2.2.1
    · intro hn
      obtain ⟨ha, hb⟩ := hcs.2.2.2 hn
      rw [ha]
      exact ⟨rfl, rfl, rfl, hb⟩

/-- C2 (amended): when present() reaches its nonblocking atomic commit and
the commit fails, the has_damage and cursor_changed flags keep their values
(remain set) and can_present remains true (present is only entered with
can_present set, and a failure leaves it untouched), and no panic occurs;
an EACCES ("not DRM master") failure is logged at debug level and every
other failure at error level; when the commit succeeds, can_present,
has_damage and cursor_changed are all cleared. -/
theorem present_flags_on_commit_outcome
    (env : KernelEnv) (dev : MetalDrmDevice) (c : MetalConnector)
    (cid pid : Nat) (crtc : MetalCrtc) (plane : MetalPlane)
    (bp : RenderBuffer × RenderBuffer)
    (hcrtc : c.crtc = some cid) (hfind : dev.findCrtc cid = some crtc)
    (hactive : crtc.active.value = true)
    (hflags : c.has_damage = true ∨ c.cursor_changed = true)
    (hcan : c.can_present = true)
    (hpp : c.primary_plane = some pid) (hfp : dev.findPlane pid = some plane)
    (hbuf : c.buffers = some bp)
    (hctx : env.has_render_ctx = true) (hreset : env.reset_status = false)
    (hcw : ∀ q, c.cursor_plane = some q → (dev.findPlane q).isSome = true)
    (hcb : c.cursor_enabled = true → (c.cursor_buffers).isSome = true) :
    ∃ c' ch lg, c.present env dev = some (c', ch, lg)
      ∧ PresentOutcome env c c' lg := by
  have hguard : ¬ ((c.has_damage = false ∧ c.cursor_changed = false)
      ∨ c.can_present = false) := by
    rcases hflags with hf | hf <;> simp [hf, hcan]
  unfold MetalConnector.present
  rw [hcrtc]
  simp only [hfind]
  rw [if_neg hguard, if_neg (by simp [hactive]), hpp]
  simp only [hfp]
  rw [hbuf]
  cases hd : c.has_damage with
  | false =>
    simp only [presentBody, hd, Bool.false_eq_true, if_false]
    exact presentTail_spec env dev c c crtc Change.empty hcw hcb rfl rfl rfl hcan
  | true =>
    simp only [presentBody, hd, if_true, check_render_context, hctx, hreset,
      Bool.true_eq_false, if_false, fetch_add]
    exact presentTail_spec env dev c _ crtc _ (fun q hq => hcw q hq)
      (fun he => hcb he) hd.symm rfl rfl hcan

/-- A concrete primary plane used by the witnesses. -/
def planeEx : MetalPlane :=
  { id := 50
    ty := PlaneType.Primary
    possible_crtcs := 1
    formats := [XRGB8888_DRM]
    assigned := true
    crtc_id := ⟨71, 40⟩
    crtc_x := ⟨72, 0⟩
    crtc_y := ⟨73, 0⟩
    crtc_w := ⟨74, 1920⟩
    crtc_h := ⟨75, 1080⟩
    src_x := ⟨76, 0⟩
    src_y := ⟨77, 0⟩
    src_w := ⟨78, 1920 * 2 ^ 16⟩
    src_h := ⟨79, 1080 * 2 ^ 16⟩
    in_fence_fd := 80
    fb_id := 81 }

/-- A concrete cursor plane used by the witnesses. -/
def cursorPlaneEx : MetalPlane :=
  { id := 51
    ty := PlaneType.Cursor
    possible_crtcs := 1
    formats := [ARGB8888_DRM]
    assigned := true
    crtc_id := ⟨82, 40⟩
    crtc_x := ⟨83, 0⟩
    crtc_y := ⟨84, 0⟩
    crtc_w := ⟨85, 64⟩
    crtc_h := ⟨86, 64⟩
    src_x := ⟨87, 0⟩
    src_y := ⟨88, 0⟩
    src_w := ⟨89, 64 * 2 ^ 16⟩
    src_h := ⟨90, 64 * 2 ^ 16⟩
    in_fence_fd := 91
    fb_id := 92 }

/-- A concrete active crtc used by the witnesses. -/
def crtcEx : MetalCrtc :=
  { id := 40
    idx := 0
    possible_planes := [50, 51]
    connector := some 30
    active := ⟨60, true⟩
    mode_id := ⟨61, 90⟩
    out_fence_ptr := 62 }

/-- A concrete device used by the witnesses. -/
def devEx : MetalDrmDevice :=
  { crtcs := [crtcEx]
    planes := [planeEx, cursorPlaneEx]
    cursor_width := 64
    cursor_height := 64 }

/-- A connector fully configured for presentation, used by the witnesses. -/
def connPresentEx : MetalConnector :=
  { connEx with
    crtc := some 40
    primary_plane := some 50
    cursor_plane := some 51
    buffers := some (bufEx, bufEx2)
    has_damage := true
    cursor_changed := false
    cursor_enabled := false }

/-- An environment whose atomic commit fails with EACCES (loss of
DRM-master privilege). -/
def envAccessFail : KernelEnv :=
  { getblob := fun _ => none
    commit := some (DrmError.Atomic EACCES)
    has_render_ctx := true
    reset_status := false
    alloc := fun _ _ _ _ => Except.error MetalError.ScanoutBuffer }

/-- An environment whose atomic commit succeeds. -/
def envOk : KernelEnv := { envAccessFail with commit := none }

/-- C2 counterexample: at a concrete connector whose commit fails with
EACCES, present() leaves can_present true (so that the connector can retry
on the next damage or cursor event), not false as the claim states. -/
theorem present_master_loss_counterexample :
    (connPresentEx.present envAccessFail devEx).map (fun r => r.1.can_present)
        = some true
      ∧ envAccessFail.commit = some (DrmError.Atomic EACCES)
      ∧ ¬ ((connPresentEx.present envAccessFail devEx).map (fun r => r.1.can_present)
            = some false) := by
  refine ⟨by rfl, by rfl, ?_⟩
  intro h
  rw [show (connPresentEx.present envAccessFail devEx).map (fun r => r.1.can_present)
      = some true from rfl] at h
  cases h

/-- C2 witness: the amended theorem applied to the concrete failing and
succeeding environments. -/
theorem present_flags_witness :
    (∃ c' ch lg, connPresentEx.present envAccessFail devEx = some (c', ch, lg)
        ∧ PresentOutcome envAccessFail connPresentEx c' lg)
      ∧ (∃ c' ch lg, connPresentEx.present envOk devEx = some (c', ch, lg)
        ∧ PresentOutcome envOk connPresentEx c' lg) := by
  constructor
  · exact present_flags_on_commit_outcome envAccessFail devEx connPresentEx 40 50
      crtcEx planeEx (bufEx, bufEx2) rfl (by decide) (by decide) (Or.inl rfl) rfl rfl
      (by decide) rfl rfl rfl
      (by intro q hq; injection hq with h; subst h; decide) (fun _ => rfl)
  · exact present_flags_on_commit_outcome envOk devEx connPresentEx 40 50
      crtcEx planeEx (bufEx, bufEx2) rfl (by decide) (by decide) (Or.inl rfl) rfl rfl
      (by decide) rfl rfl rfl
      (by intro q hq; injection hq with h; subst h; decide) (fun _ => rfl)

theorem presentCommit_change (env : KernelEnv) (c : MetalConnector) (ch : Change) :
    (presentCommit env c ch).2.1 = ch := by
  rcases hc : env.commit with _ | e
  · simp [presentCommit, hc]
  · rcases e with errno | _
    · by_cases he : errno = EACCES <;> simp [presentCommit, hc, he]
    · simp [presentCommit, hc]

theorem presentCommit_front (env : KernelEnv) (c : MetalConnector) (ch : Change) :
    (presentCommit env c ch).1.cursor_front_buffer = c.cursor_front_buffer := by
  rcases hc : env.commit with _ | e
  · simp [presentCommit, hc]
  · rcases e with errno | _
    · by_cases he : errno = EACCES <;> simp [presentCommit, hc, he]
    · simp [presentCommit, hc]

theorem change_object_on_empty (obj : Nat) (pairs : List (Nat × Nat)) :
    (Change.empty.change_object obj pairs).props = pairs.map Prod.fst
      ∧ (Change.empty.change_object obj pairs).values = pairs.map Prod.snd := by
  unfold Change.change_object
  simp only [Change.empty]
  refine ⟨?_, ?_⟩ <;> (split <;> rfl)

theorem exists_commit_shape (env : KernelEnv) (c2 : MetalConnector) (ch2 : Change)
    (P : MetalConnector → Change → Option LogLevel → Prop)
    (h : P (presentCommit env c2 ch2).1 (presentCommit env c2 ch2).2.1
        (presentCommit env c2 ch2).2.2) :
    ∃ c' ch lg, some (presentCommit env c2 ch2) = some (c', ch, lg) ∧ P c' ch lg :=
  ⟨_, _, _, rfl, h⟩

/-- C9: present() stages the cursor buffer at index cursor_front_buffer
mod 2 for scanout, while get_buffer hands the caller the buffer at index
(cursor_front_buffer + 1) mod 2 — so the render target given to the caller
is never the buffer index being presented. -/
theorem get_buffer_never_presented_index
    (env : KernelEnv) (dev : MetalDrmDevice) (c : MetalConnector)
    (cid pid q : Nat) (crtc : MetalCrtc) (plane qplane : MetalPlane)
    (bp cp : RenderBuffer × RenderBuffer)
    (hcrtc : c.crtc = some cid) (hfind : dev.findCrtc cid = some crtc)
    (hactive : crtc.active.value = true)
    (hcc : c.cursor_changed = true) (hcan : c.can_present = true)
    (hpp : c.primary_plane = some pid) (hfp : dev.findPlane pid = some plane)
    (hbuf : c.buffers = some bp) (hd : c.has_damage = false)
    (hq : c.cursor_plane = some q) (hfq : dev.findPlane q = some qplane)
    (hce : c.cursor_enabled = true) (hcb : c.cursor_buffers = some cp) :
    ∃ c' ch lg, c.present env dev = some (c', ch, lg)
      ∧ ch.props.head? = some qplane.fb_id
      ∧ ch.values.head? = some ((bufAt cp (c'.cursor_front_buffer % 2)).drm_id)
      ∧ MetalHardwareCursor.get_buffer_index c' ≠ c'.cursor_front_buffer % 2
      ∧ ∀ hc : MetalHardwareCursor, hc.get_buffer c'
          = bufAt hc.cursor_buffers (MetalHardwareCursor.get_buffer_index c') := by
  have hguard : ¬ ((c.has_damage = false ∧ c.cursor_changed = false)
      ∨ c.can_present = false) := by simp [hcc, hcan]
  unfold MetalConnector.present
  rw [hcrtc]
  simp only [hfind]
  rw [if_neg hguard, if_neg (by simp [hactive]), hpp]
  simp only [hfp]
  rw [hbuf]
  simp only [presentBody, hd, Bool.false_eq_true, if_false]
  cases h6 : c.cursor_swap_buffer with
  | false =>
    simp only [presentCursor, hcc, hq, hfq, hce, hcb, h6, fetch_add,
      Bool.true_eq_false, if_false, if_true]
    simp only [Bool.false_eq_true, if_false]
    refine exists_commit_shape env _ _ _ ⟨?_, ?_, ?_, fun hc => rfl⟩
    · rw [presentCommit_change, (change_object_on_empty _ _).1]
      rfl
    · rw [presentCommit_change, (change_object_on_empty _ _).2, presentCommit_front]
      rfl
    · rw [presentCommit_front]
      unfold MetalHardwareCursor.get_buffer_index
      rw [presentCommit_front]
      omega
  | true =>
    simp only [presentCursor, hcc, hq, hfq, hce, hcb, h6, fetch_add,
      Bool.true_eq_false, if_false, if_true]
    refine exists_commit_shape env _ _ _ ⟨?_, ?_, ?_, fun hc => rfl⟩
    · rw [presentCommit_change, (change_object_on_empty _ _).1]
      rfl
    · rw [presentCommit_change, (change_object_on_empty _ _).2, presentCommit_front]
      rfl
    · rw [presentCommit_front]
      unfold MetalHardwareCursor.get_buffer_index
      rw [presentCommit_front]
      omega

/-- The connector-facing effect of MetalBackend::handle_drm_flip_event
(src/backends/metal/video.rs lines 1240-1259): the flip-complete event
re-enables can_present for the crtc's connector. -/
def handle_flip (c : MetalConnector) : MetalConnector :=
  { c with can_present := true }

theorem present_cursor_step
    (env : KernelEnv) (dev : MetalDrmDevice) (c : MetalConnector)
    (cid pid q : Nat) (crtc : MetalCrtc) (plane qplane : MetalPlane)
    (bp cp : RenderBuffer × RenderBuffer)
    (hcrtc : c.crtc = some cid) (hfind : dev.findCrtc cid = some crtc)
    (hactive : crtc.active.value = true)
    (hcc : c.cursor_changed = true) (hcan : c.can_present = true)
    (hpp : c.primary_plane = some pid) (hfp : dev.findPlane pid = some plane)
    (hbuf : c.buffers = some bp) (hd : c.has_damage = false)
    (hq : c.cursor_plane = some q) (hfq : dev.findPlane q = some qplane)
    (hce : c.cursor_enabled = true) (hcb : c.cursor_buffers = some cp)
    (hcommit : env.commit = none) :
    (c.present env dev).map (fun r => (r.1, r.2.2)) = some
      ({ c with
          cursor_swap_buffer := false
          cursor_front_buffer :=
            c.cursor_front_buffer + (if c.cursor_swap_buffer = true then 1 else 0)
          can_present := false
          has_damage := false
          cursor_changed := false },
        none) := by
  have hguard : ¬ ((c.has_damage = false ∧ c.cursor_changed = false)
      ∨ c.can_present = false) := by simp [hcc, hcan]
  unfold MetalConnector.present
  rw [hcrtc]
  simp only [hfind]
  rw [if_neg hguard, if_neg (by simp [hactive]), hpp]
  simp only [hfp]
  rw [hbuf]
  simp only [presentBody, hd, Bool.false_eq_true, if_false]
  cases h6 : c.cursor_swap_buffer with
  | false =>
    simp only [presentCursor, hcc, hq, hfq, hce, hcb, h6, fetch_add,
      Bool.true_eq_false, Bool.false_eq_true, if_false, if_true]
    simp only [presentCommit, hcommit]
    simp [hcrtc, hpp, hbuf]
  | true =>
    simp only [presentCursor, hcc, hq, hfq, hce, hcb, h6, fetch_add,
      Bool.true_eq_false, Bool.false_eq_true, if_false, if_true]
    simp only [presentCommit, hcommit]
    simp [hcrtc, hpp, hbuf]

/-- One frame cycle of cursor double-buffering, assembled from the source
operations: a hardware-cursor object freshly advertised by
send_hardware_cursor requests a buffer swap and commits, present() runs,
and the flip-complete event re-enables can_present. -/
def swapPresentCycle (env : KernelEnv) (dev : MetalDrmDevice) (c : MetalConnector) :
    Option MetalConnector :=
  let s := c.send_hardware_cursor
  match s.2.2 with
  | none => none
  | some hc =>
    let r := (hc.swap_buffer).commit s.1
    match r.2.1.present env dev with
    | none => none
    | some t => some (handle_flip t.1)

/-- N consecutive swap-and-present cycles. -/
def swapPresentIter (env : KernelEnv) (dev : MetalDrmDevice) :
    Nat → MetalConnector → Option MetalConnector
  | 0, c => some c
  | n + 1, c =>
    match swapPresentCycle env dev c with
    | none => none
    | some c' => swapPresentIter env dev n c'

/-- The connector configuration under which the cursor present path runs:
an active bound crtc, presentation possible, a primary plane with buffers,
a cursor plane with buffers, the cursor enabled, and the connector
announced. -/
def GoodCursorState (dev : MetalDrmDevice) (c : MetalConnector) : Prop :=
  (∃ cid crtc, c.crtc = some cid ∧ dev.findCrtc cid = some crtc
      ∧ crtc.active.value = true)
    ∧ c.can_present = true
    ∧ c.has_damage = false
    ∧ (∃ pid plane, c.primary_plane = some pid ∧ dev.findPlane pid = some plane)
    ∧ (∃ bp, c.buffers = some bp)
    ∧ (∃ q qplane, c.cursor_plane = some q ∧ dev.findPlane q = some qplane)
    ∧ (∃ cp, c.cursor_buffers = some cp)
    ∧ c.cursor_enabled = true
    ∧ c.connect_sent = true

theorem map_fst_of_eq {t : MetalConnector × Change × Option LogLevel}
    {y : MetalConnector} {lg : Option LogLevel}
    (h : Option.map (fun r => (r.1, r.2.2)) (some t) = some (y, lg)) :
    t.1 = y := by
  have h2 : (t.1, t.2.2) = (y, lg) := Option.some.inj h
  exact congrArg Prod.fst h2

theorem swapPresentCycle_step (env : KernelEnv) (dev : MetalDrmDevice)
    (c : MetalConnector) (hP : GoodCursorState dev c)
    (hcommit : env.commit = none) :
    ∃ c', swapPresentCycle env dev c = some c' ∧ GoodCursorState dev c'
      ∧ c'.cursor_front_buffer = c.cursor_front_buffer + 1 := by
  obtain ⟨⟨cid, crtc, hcid, hfind, hactive⟩, hcan, hd, ⟨pid, plane, hpp, hfp⟩,
    ⟨bp, hbuf⟩, ⟨q, qplane, hq, hfq⟩, ⟨cp, hcb⟩, hce, hcs⟩ := hP
  have hsend : c.send_hardware_cursor =
      ({ c with cursor_generation := c.cursor_generation + 1 },
        [ConnectorEvent.HardwareCursor true],
        some { generation := c.cursor_generation + 1
               cursor_swap_buffer := false
               cursor_enabled_pending := c.cursor_enabled
               cursor_x_pending := c.cursor_x
               cursor_y_pending := c.cursor_y
               cursor_buffers := cp
               have_changes := false }) := by
    simp [MetalConnector.send_hardware_cursor, hcs, hcb, fetch_add]
  have hcmt : (MetalHardwareCursor.swap_buffer
        { generation := c.cursor_generation + 1
          cursor_swap_buffer := false
          cursor_enabled_pending := c.cursor_enabled
          cursor_x_pending := c.cursor_x
          cursor_y_pending := c.cursor_y
          cursor_buffers := cp
          have_changes := false }).commit
        { c with cursor_generation := c.cursor_generation + 1 } =
      ({ generation := c.cursor_generation + 1
         cursor_swap_buffer := false
         cursor_enabled_pending := c.cursor_enabled
         cursor_x_pending := c.cursor_x
         cursor_y_pending := c.cursor_y
         cursor_buffers := cp
         have_changes := false },
        { c with cursor_generation := c.cursor_generation + 1
                 cursor_swap_buffer := true
                 cursor_changed := true },
        c.can_present) := by
    simp [MetalHardwareCursor.swap_buffer, MetalHardwareCursor.commit]
  have hps := present_cursor_step env dev
    { c with cursor_generation := c.cursor_generation + 1
             cursor_swap_buffer := true
             cursor_changed := true }
    cid pid q crtc plane qplane bp cp hcid hfind hactive rfl hcan hpp hfp hbuf hd
    hq hfq hce hcb hcommit
  simp only [swapPresentCycle]
  rw [hsend]
  simp only []
  rw [hcmt]
  simp only []
  cases hx : MetalConnector.present
      { c with cursor_generation := c.cursor_generation + 1
               cursor_swap_buffer := true
               cursor_changed := true } env dev with
  | none => rw [hx] at hps; simp at hps
  | some t =>
    rw [hx] at hps
    have ht1 : t.1 = { c with cursor_generation := c.cursor_generation + 1
                              cursor_swap_buffer := false
                              cursor_front_buffer := c.cursor_front_buffer + 1
                              can_present := false
                              has_damage := false
                              cursor_changed := false } := by
      simpa using map_fst_of_eq hps
    refine ⟨handle_flip t.1, rfl, ?_, ?_⟩
    · rw [ht1]
      exact ⟨⟨cid, crtc, hcid, hfind, hactive⟩, rfl, rfl, ⟨pid, plane, hpp, hfp⟩,
        ⟨bp, hbuf⟩, ⟨q, qplane, hq, hfq⟩, ⟨cp, hcb⟩, hce, hcs⟩
    · rw [ht1]
      rfl

theorem swapPresentIter_front (env : KernelEnv) (dev : MetalDrmDevice)
    (hcommit : env.commit = none) :
    ∀ (n : Nat) (c : MetalConnector), GoodCursorState dev c →
      ∃ c', swapPresentIter env dev n c = some c'
        ∧ GoodCursorState dev c'
        ∧ c'.cursor_front_buffer = c.cursor_front_buffer + n := by
  intro n
  induction n with
  | zero => intro c hP; exact ⟨c, rfl, hP, rfl⟩
  | succ n ih =>
    intro c hP
    obtain ⟨c1, hc1, hP1, hf1⟩ := swapPresentCycle_step env dev c hP hcommit
    obtain ⟨c', hc', hP', hf'⟩ := ih c1 hP1
    refine ⟨c', ?_, hP', by omega⟩
    simp only [swapPresentIter, hc1]
    exact hc'

/-- A connector in cursor-presenting configuration, used by the witnesses. -/
def connCursorEx : MetalConnector :=
  { connPresentEx with
    has_damage := false
    cursor_changed := true
    cursor_enabled := true }

/-- C8: starting from a fresh connector (cursor front-buffer index 0), after
N applied cursor buffer-swap requests (each request going through the
hardware-cursor object's swap_buffer and commit, then a successful present
and its flip-complete event) the front-buffer index taken mod 2 equals
N mod 2; and a present with the cursor enabled but no pending swap leaves
the front index unchanged, scanning out the same front buffer as before. -/
theorem cursor_front_buffer_mod_two (env : KernelEnv) (dev : MetalDrmDevice)
    (hcommit : env.commit = none) :
    (∀ (n : Nat) (c : MetalConnector), GoodCursorState dev c →
        c.cursor_front_buffer = 0 →
        ∃ c', swapPresentIter env dev n c = some c'
          ∧ c'.cursor_front_buffer % 2 = n % 2)
      ∧ (∀ (c : MetalConnector) (cid pid q : Nat) (crtc : MetalCrtc)
          (plane qplane : MetalPlane) (bp cp : RenderBuffer × RenderBuffer),
          c.crtc = some cid → dev.findCrtc cid = some crtc →
          crtc.active.value = true →
          c.cursor_changed = true → c.can_present = true →
          c.primary_plane = some pid → dev.findPlane pid = some plane →
          c.buffers = some bp → c.has_damage = false →
          c.cursor_plane = some q → dev.findPlane q = some qplane →
          c.cursor_enabled = true → c.cursor_buffers = some cp →
          c.cursor_swap_buffer = false →
          (c.present env dev).map (fun r => r.1.cursor_front_buffer)
            = some c.cursor_front_buffer) := by
  constructor
  · intro n c hP h0
    obtain ⟨c', hiter, -, hf⟩ := swapPresentIter_front env dev hcommit n c hP
    refine ⟨c', hiter, ?_⟩
    rw [hf, h0]
    simp
  · intro c cid pid q crtc plane qplane bp cp h1 h2 h3 h4 h5 h6 h7 h8 h9 h10
      h11 h12 h13 h14
    have hps := present_cursor_step env dev c cid pid q crtc plane qplane bp cp
      h1 h2 h3 h4 h5 h6 h7 h8 h9 h10 h11 h12 h13 hcommit
    cases hx : c.present env dev with
    | none => rw [hx] at hps; simp at hps
    | some t =>
      rw [hx] at hps
      have ht1 := map_fst_of_eq hps
      simp [ht1, h14]

/-- C8 witness: three swap cycles from the concrete connector leave the
front index at 3, congruent to 3 mod 2; a present with no pending swap
keeps the index at 0. -/
theorem cursor_front_buffer_mod_two_witness :
    (∃ c', swapPresentIter envOk devEx 3 connCursorEx = some c'
        ∧ c'.cursor_front_buffer % 2 = 3 % 2)
      ∧ (connCursorEx.present envOk devEx).map (fun r => r.1.cursor_front_buffer)
          = some connCursorEx.cursor_front_buffer :=
  ⟨(cursor_front_buffer_mod_two envOk devEx rfl).1 3 connCursorEx
      ⟨⟨40, crtcEx, rfl, by decide, by decide⟩, rfl, rfl,
        ⟨50, planeEx, rfl, by decide⟩, ⟨(bufEx, bufEx2), rfl⟩,
        ⟨51, cursorPlaneEx, rfl, by decide⟩, ⟨(bufEx, bufEx2), rfl⟩, rfl, rfl⟩
      rfl,
    (cursor_front_buffer_mod_two envOk devEx rfl).2 connCursorEx 40 50 51 crtcEx
      planeEx cursorPlaneEx (bufEx, bufEx2) (bufEx, bufEx2) rfl (by decide)
      (by decide) rfl rfl rfl (by decide) rfl rfl rfl (by decide) rfl rfl rfl⟩

/-- C9 witness: the theorem applied to the concrete cursor-presenting
connector. -/
theorem get_buffer_never_presented_index_witness :
    ∃ c' ch lg, connCursorEx.present envOk devEx = some (c', ch, lg)
      ∧ ch.props.head? = some cursorPlaneEx.fb_id
      ∧ ch.values.head?
          = some ((bufAt (bufEx, bufEx2) (c'.cursor_front_buffer % 2)).drm_id)
      ∧ MetalHardwareCursor.get_buffer_index c' ≠ c'.cursor_front_buffer % 2
      ∧ ∀ hc : MetalHardwareCursor, hc.get_buffer c'
          = bufAt hc.cursor_buffers (MetalHardwareCursor.get_buffer_index c') :=
  get_buffer_never_presented_index envOk devEx connCursorEx 40 50 51 crtcEx
    planeEx cursorPlaneEx (bufEx, bufEx2) (bufEx, bufEx2) rfl (by decide)
    (by decide) rfl rfl rfl (by decide) rfl rfl rfl (by decide) rfl rfl

/-- The per-connector body of the surviving-connector loop of
MetalBackend::handle_drm_change_ (src/backends/metal/video.rs lines
972-996): the freshly fetched display data dd is swapped into the
connector; if the connector had announced itself as connected and it is
now disabled, or the new status is not Connected, or the monitor identity
changed, a Disconnected event is emitted and the connected flag cleared;
otherwise, when preserve_any is set, the connector becomes
preserve-eligible. Returns the updated connector, the emitted events, and
the eligibility. -/
def handleSurvivor (c : MetalConnector) (dd : ConnectorDisplayData)
    (preserve_any : Bool) : MetalConnector × List ConnectorEvent × Bool :=
  let c1 := { c with display := dd }
  if c1.connect_sent = true then
    if c1.enabled = false ∨ dd.connection ≠ ConnectorStatus.Connected
        ∨ dd.is_same_monitor c.display = false then
      ({ c1 with connect_sent := false }, [ConnectorEvent.Disconnected], false)
    else if preserve_any then (c1, [], true)
    else (c1, [], false)
  else (c1, [], false)

/-- C6: for a surviving connector whose display data is refetched, if it
had announced itself as connected and (it is now disabled, or its new
status is not Connected, or the monitor identity changed) then a
Disconnected event is emitted, the connected flag is cleared and the
connector is not preserve-eligible; otherwise (in a change-handling pass,
preserve_any) it becomes eligible for the preserve set; and two
display-data instances denote the same monitor iff manufacturer, name and
serial number all match. -/
theorem survivor_disconnect_rule_and_monitor_identity
    (c : MetalConnector) (dd : ConnectorDisplayData) (pa : Bool)
    (hcs : c.connect_sent = true) :
    ((c.enabled = false ∨ dd.connection ≠ ConnectorStatus.Connected
        ∨ dd.is_same_monitor c.display = false) →
      (handleSurvivor c dd pa).2.1 = [ConnectorEvent.Disconnected]
        ∧ (handleSurvivor c dd pa).1.connect_sent = false
        ∧ (handleSurvivor c dd pa).2.2 = false)
    ∧ ((c.enabled = true ∧ dd.connection = ConnectorStatus.Connected
        ∧ dd.is_same_monitor c.display = true) →
      (handleSurvivor c dd pa).2.1 = []
        ∧ (handleSurvivor c dd pa).1.connect_sent = true
        ∧ (handleSurvivor c dd pa).2.2 = pa)
    ∧ (∀ a b : ConnectorDisplayData, a.is_same_monitor b = true ↔
        (a.monitor_manufacturer = b.monitor_manufacturer
          ∧ a.monitor_name = b.monitor_name
          ∧ a.monitor_serial_number = b.monitor_serial_number)) := by
  refine ⟨?_, ?_, ?_⟩
  · intro hD
    dsimp only [handleSurvivor]
    rw [if_pos hcs, if_pos hD]
    exact ⟨rfl, rfl, rfl⟩
  · rintro ⟨he, hc2, hm⟩
    have hneg : ¬ (c.enabled = false
        ∨ dd.connection ≠ ConnectorStatus.Connected
        ∨ dd.is_same_monitor c.display = false) := by
      simp [he, hc2, hm]
    dsimp only [handleSurvivor]
    rw [if_pos hcs, if_neg hneg]
    cases pa with
    | false => exact ⟨rfl, hcs, rfl⟩
    | true => exact ⟨rfl, hcs, rfl⟩
  · intro a b
    simp [ConnectorDisplayData.is_same_monitor, and_assoc]

/-- Display data reporting a different monitor serial number behind the
same connector. -/
def ddChangedEx : ConnectorDisplayData :=
  { ddEx with monitor_serial_number := "999" }

/-- C6 witness: a monitor-identity change on an announced connector forces
a disconnect, and an unchanged monitor on an enabled connected connector
is preserve-eligible in a change pass. -/
theorem survivor_disconnect_rule_witness :
    ((handleSurvivor connEx ddChangedEx true).2.1 = [ConnectorEvent.Disconnected]
      ∧ (handleSurvivor connEx ddChangedEx true).1.connect_sent = false
      ∧ (handleSurvivor connEx ddChangedEx true).2.2 = false)
    ∧ ((handleSurvivor connEx ddEx true).2.1 = []
      ∧ (handleSurvivor connEx ddEx true).1.connect_sent = true
      ∧ (handleSurvivor connEx ddEx true).2.2 = true) :=
  ⟨(survivor_disconnect_rule_and_monitor_identity connEx ddChangedEx true rfl).1
      (Or.inr (Or.inr (by decide))),
    (survivor_disconnect_rule_and_monitor_identity connEx ddEx true rfl).2.1
      ⟨rfl, rfl, by decide⟩⟩

/-- First unassigned Primary plane supporting XRGB8888 among a crtc's
possible planes, from the primary_plane search loop of
MetalBackend::assign_connector_planes (src/backends/metal/video.rs lines
1719-1729). -/
def findPrimaryPlane (dev : MetalDrmDevice) : List Nat → Option MetalPlane
  | [] => none
  | p :: rest =>
    match dev.findPlane p with
    | some plane =>
      if plane.ty = PlaneType.Primary ∧ plane.assigned = false
          ∧ XRGB8888_DRM ∈ plane.formats then some plane
      else findPrimaryPlane dev rest
    | none => findPrimaryPlane dev rest

/-- First unassigned Cursor plane supporting ARGB8888, from the
cursor_plane search loop (lines 1741-1750). -/
def findCursorPlane (dev : MetalDrmDevice) : List Nat → Option MetalPlane
  | [] => none
  | p :: rest =>
    match dev.findPlane p with
    | some plane =>
      if plane.ty = PlaneType.Cursor ∧ plane.assigned = false
          ∧ ARGB8888_DRM ∈ plane.formats then some plane
      else findCursorPlane dev rest
    | none => findCursorPlane dev rest

/-- Replaces a plane's cached record in the authoritative device list,
standing in for mutation through the shared Rc. -/
def updatePlane (dev : MetalDrmDevice) (p : MetalPlane) : MetalDrmDevice :=
  { dev with planes := dev.planes.map (fun x => if x.id = p.id then p else x) }

/-- Embeds MetalBackend::assign_connector_planes from
src/backends/metal/video.rs (lines 1700-1810). Per connector with a bound
crtc and a chosen mode: the first unassigned XRGB8888-capable Primary
plane is selected (error NoPrimaryPlaneForConnector when none exists),
primary scanout buffers are allocated (their failure propagates), the
plane's full-frame geometry is staged and cached, and an unassigned
ARGB8888-capable Cursor plane is optionally taken — a cursor
buffer-allocation failure is logged and leaves the connector without a
cursor plane. The displaced old buffer pairs, retained by the caller in
old_buffers, are beyond the modelled state. none models a dangling crtc
reference (unreachable in the source). -/
def assign_connector_planes (env : KernelEnv) (dev : MetalDrmDevice)
    (c : MetalConnector) (ch : Change) :
    Option (Except MetalError (MetalDrmDevice × MetalConnector × Change)) :=
  match c.crtc with
  | none => some (Except.ok (dev, c, ch))
  | some cid =>
    match dev.findCrtc cid with
    | none => none
    | some crtc =>
      match c.display.mode with
      | none => some (Except.ok (dev, c, ch))
      | some mode =>
        match findPrimaryPlane dev crtc.possible_planes with
        | none => some (Except.error MetalError.NoPrimaryPlaneForConnector)
        | some pplane =>
          match env.alloc XRGB8888_DRM (mode.hdisplay : Int) (mode.vdisplay : Int)
              false with
          | Except.error e => some (Except.error e)
          | Except.ok buffers =>
            let cp0 := findCursorPlane dev crtc.possible_planes
            let cpb : Option MetalPlane × Option (RenderBuffer × RenderBuffer) :=
              match cp0 with
              | none => (none, none)
              | some cp =>
                match env.alloc ARGB8888_DRM (dev.cursor_width : Int)
                    (dev.cursor_height : Int) true with
                | Except.ok r => (some cp, some r)
                | Except.error _ => (none, none)
            let ch' := ch.change_object pplane.id
              [(pplane.fb_id, buffers.1.drm_id),
               (pplane.crtc_id.id, crtc.id),
               (pplane.crtc_x.id, 0),
               (pplane.crtc_y.id, 0),
               (pplane.crtc_w.id, mode.hdisplay),
               (pplane.crtc_h.id, mode.vdisplay),
               (pplane.src_x.id, 0),
               (pplane.src_y.id, 0),
               (pplane.src_w.id, mode.hdisplay * 2 ^ 16),
               (pplane.src_h.id, mode.vdisplay * 2 ^ 16)]
            let primary' := { pplane with
              assigned := true
              crtc_id := { pplane.crtc_id with value := crtc.id }
              crtc_x := { pplane.crtc_x with value := 0 }
              crtc_y := { pplane.crtc_y with value := 0 }
              crtc_w := { pplane.crtc_w with value := (mode.hdisplay : Int) }
              crtc_h := { pplane.crtc_h with value := (mode.vdisplay : Int) }
              src_x := { pplane.src_x with value := 0 }
              src_y := { pplane.src_y with value := 0 }
              src_w := { pplane.src_w with value := mode.hdisplay * 2 ^ 16 }
              src_h := { pplane.src_h with value := mode.vdisplay * 2 ^ 16 } }
            let dev1 := updatePlane dev primary'
            let dev2 :=
              match cpb.1 with
              | some cp => updatePlane dev1 { cp with assigned := true }
              | none => dev1
            let c' := { c with
              buffers := some buffers
              primary_plane := some pplane.id
              cursor_buffers := cpb.2
              cursor_plane := cpb.1.map (fun p => p.id)
              cursor_enabled := false }
            some (Except.ok (dev2, c', ch'))

theorem findPrimaryPlane_none_iff (dev : MetalDrmDevice) (l : List Nat) :
    findPrimaryPlane dev l = none
      ↔ ∀ pid ∈ l, ∀ plane, dev.findPlane pid = some plane →
          ¬ (plane.ty = PlaneType.Primary ∧ plane.assigned = false
              ∧ XRGB8888_DRM ∈ plane.formats) := by
  induction l with
  | nil => simp [findPrimaryPlane]
  | cons p rest ih =>
    cases hfp : dev.findPlane p with
    | none =>
      simp only [findPrimaryPlane, hfp, ih]
      constructor
      · intro h pid hmem plane hpl
        rcases List.mem_cons.mp hmem with rfl | hmem
        · rw [hfp] at hpl; cases hpl
        · exact h pid hmem plane hpl
      · intro h pid hmem plane hpl
        exact h pid (List.mem_cons_of_mem _ hmem) plane hpl
    | some plane =>
      by_cases hcond : plane.ty = PlaneType.Primary ∧ plane.assigned = false
          ∧ XRGB8888_DRM ∈ plane.formats
      · simp only [findPrimaryPlane, hfp, if_pos hcond]
        constructor
        · intro h; cases h
        · intro h
          exact absurd hcond (h p (by simp) plane hfp)
      · simp only [findPrimaryPlane, hfp, if_neg hcond, ih]
        constructor
        · intro h pid hmem plane2 hpl
          rcases List.mem_cons.mp hmem with rfl | hmem
          · rw [hfp] at hpl
            injection hpl with h2
            subst h2
            exact hcond
          · exact h pid hmem plane2 hpl
        · intro h pid hmem plane2 hpl
          exact h pid (List.mem_cons_of_mem _ hmem) plane2 hpl

theorem findPrimaryPlane_some (dev : MetalDrmDevice) (l : List Nat)
    (p : MetalPlane) (h : findPrimaryPlane dev l = some p) :
    p.ty = PlaneType.Primary ∧ p.assigned = false ∧ XRGB8888_DRM ∈ p.formats
      ∧ ∃ pid ∈ l, dev.findPlane pid = some p := by
  induction l with
  | nil => simp [findPrimaryPlane] at h
  | cons q rest ih =>
    cases hfp : dev.findPlane q with
    | none =>
      simp only [findPrimaryPlane, hfp] at h
      obtain ⟨h1, h2, h3, pid, hmem, hpl⟩ := ih h
      exact ⟨h1, h2, h3, pid, List.mem_cons_of_mem _ hmem, hpl⟩
    | some plane =>
      by_cases hcond : plane.ty = PlaneType.Primary ∧ plane.assigned = false
          ∧ XRGB8888_DRM ∈ plane.formats
      · simp only [findPrimaryPlane, hfp, if_pos hcond] at h
        injection h with h2
        subst h2
        exact ⟨hcond.1, hcond.2.1, hcond.2.2, q, by simp, hfp⟩
      · simp only [findPrimaryPlane, hfp, if_neg hcond] at h
        obtain ⟨h1, h2, h3, pid, hmem, hpl⟩ := ih h
        exact ⟨h1, h2, h3, pid, List.mem_cons_of_mem _ hmem, hpl⟩

/-- C7: for a connector with a bound crtc and a chosen mode, plane
assignment fails with NoPrimaryPlaneForConnector exactly when no
unassigned Primary plane supporting XRGB8888 exists among the crtc's
possible planes; when one exists and its buffers allocate, the selected
plane is such a plane and its geometry is staged to exactly the mode's
dimensions with no scaling (crtc rect 0,0,hdisplay,vdisplay and the same
rect as source in 16.16 fixed point); and a cursor buffer-allocation
failure is non-fatal, leaving the connector without a cursor plane. -/
theorem assign_planes_primary_and_cursor
    (env : KernelEnv) (dev : MetalDrmDevice) (c : MetalConnector) (ch : Change)
    (cid : Nat) (crtc : MetalCrtc) (mode : DrmModeInfo)
    (hcid : c.crtc = some cid) (hfind : dev.findCrtc cid = some crtc)
    (hmode : c.display.mode = some mode)
    (halloc : ∀ f w h cf e, env.alloc f w h cf = Except.error e →
        e ≠ MetalError.NoPrimaryPlaneForConnector) :
    (assign_connector_planes env dev c ch
        = some (Except.error MetalError.NoPrimaryPlaneForConnector)
      ↔ ∀ pid ∈ crtc.possible_planes, ∀ plane, dev.findPlane pid = some plane →
          ¬ (plane.ty = PlaneType.Primary ∧ plane.assigned = false
              ∧ XRGB8888_DRM ∈ plane.formats))
    ∧ (∀ pplane bufs,
        findPrimaryPlane dev crtc.possible_planes = some pplane →
        env.alloc XRGB8888_DRM (mode.hdisplay : Int) (mode.vdisplay : Int) false
            = Except.ok bufs →
        pplane.ty = PlaneType.Primary ∧ pplane.assigned = false
          ∧ XRGB8888_DRM ∈ pplane.formats
          ∧ (∃ pid ∈ crtc.possible_planes, dev.findPlane pid = some pplane)
          ∧ ∃ dev' c' ch2,
              assign_connector_planes env dev c ch
                  = some (Except.ok (dev', c', ch2))
                ∧ ch2 = ch.change_object pplane.id
                    [(pplane.fb_id, bufs.1.drm_id),
                     (pplane.crtc_id.id, crtc.id),
                     (pplane.crtc_x.id, 0), (pplane.crtc_y.id, 0),
                     (pplane.crtc_w.id, mode.hdisplay),
                     (pplane.crtc_h.id, mode.vdisplay),
                     (pplane.src_x.id, 0), (pplane.src_y.id, 0),
                     (pplane.src_w.id, mode.hdisplay * 2 ^ 16),
                     (pplane.src_h.id, mode.vdisplay * 2 ^ 16)]
                ∧ c'.primary_plane = some pplane.id
                ∧ c'.buffers = some bufs)
    ∧ (∀ pplane bufs e,
        findPrimaryPlane dev crtc.possible_planes = some pplane →
        env.alloc XRGB8888_DRM (mode.hdisplay : Int) (mode.vdisplay : Int) false
            = Except.ok bufs →
        env.alloc ARGB8888_DRM (dev.cursor_width : Int) (dev.cursor_height : Int)
            true = Except.error e →
        ∃ dev' c' ch2,
          assign_connector_planes env dev c ch = some (Except.ok (dev', c', ch2))
            ∧ c'.cursor_plane = none ∧ c'.cursor_buffers = none) := by
  refine ⟨⟨?_, ?_⟩, ?_, ?_⟩
  · intro hres
    rw [← findPrimaryPlane_none_iff]
    cases hfpp : findPrimaryPlane dev crtc.possible_planes with
    | none => rfl
    | some pplane =>
      exfalso
      cases hal : env.alloc XRGB8888_DRM (mode.hdisplay : Int) (mode.vdisplay : Int)
          false with
      | error e =>
        simp only [assign_connector_planes, hcid, hfind, hmode, hfpp, hal] at hres
        have he : e = MetalError.NoPrimaryPlaneForConnector := by
          simpa using hres
        exact halloc _ _ _ _ e hal he
      | ok buffers =>
        simp only [assign_connector_planes, hcid, hfind, hmode, hfpp, hal] at hres
        simp at hres
  · intro hforall
    have hfpp : findPrimaryPlane dev crtc.possible_planes = none :=
      (findPrimaryPlane_none_iff dev crtc.possible_planes).mpr hforall
    simp only [assign_connector_planes, hcid, hfind, hmode, hfpp]
  · intro pplane bufs hfpp hal
    obtain ⟨h1, h2, h3, hex⟩ := findPrimaryPlane_some dev _ pplane hfpp
    refine ⟨h1, h2, h3, hex, ?_⟩
    simp only [assign_connector_planes, hcid, hfind, hmode, hfpp, hal]
    exact ⟨_, _, _, rfl, rfl, rfl, rfl⟩
  · intro pplane bufs e hfpp hal hce
    cases hcp : findCursorPlane dev crtc.possible_planes with
    | none =>
      simp only [assign_connector_planes, hcid, hfind, hmode, hfpp, hal, hcp]
      exact ⟨_, _, _, rfl, rfl, rfl⟩
    | some cp =>
      simp only [assign_connector_planes, hcid, hfind, hmode, hfpp, hal, hcp, hce]
      exact ⟨_, _, _, rfl, rfl, rfl⟩

/-- A concrete 1920x1080@60 mode used by the witnesses. -/
def modeEx : DrmModeInfo :=
  { clock := 148500
    hdisplay := 1920
    hsync_start := 2008
    hsync_end := 2052
    htotal := 2200
    hskew := 0
    vdisplay := 1080
    vsync_start := 1084
    vsync_end := 1089
    vtotal := 1125
    vscan := 0
    vrefresh := 60
    flags := 5
    ty := 72
    name := "1920x1080" }

/-- Display data carrying a chosen mode, used by the witnesses. -/
def ddModeEx : ConnectorDisplayData :=
  { ddEx with mode := some modeEx, crtcs := [40], modes := [modeEx] }

/-- An unassigned variant of the primary plane. -/
def planeFreeEx : MetalPlane := { planeEx with assigned := false }

/-- An unassigned variant of the cursor plane. -/
def cursorPlaneFreeEx : MetalPlane := { cursorPlaneEx with assigned := false }

/-- A device whose planes are still unassigned, used by the witnesses. -/
def devFreeEx : MetalDrmDevice :=
  { devEx with planes := [planeFreeEx, cursorPlaneFreeEx] }

/-- A connector with a bound crtc and a chosen mode, before plane
assignment. -/
def connAssignEx : MetalConnector :=
  { connEx with crtc := some 40, display := ddModeEx }

/-- An environment whose cursor-buffer allocation fails while primary
allocation succeeds. -/
def envCursorAllocFail : KernelEnv :=
  { envOk with alloc := fun _ _ _ cf =>
      if cf then Except.error MetalError.ScanoutBuffer
      else Except.ok (bufEx, bufEx2) }

/-- C7 witness: the theorem applied to a concrete device whose cursor
allocation fails; plane assignment still succeeds and the connector is
left without a cursor plane. -/
theorem assign_planes_witness :
    ∃ dev' c' ch2,
      assign_connector_planes envCursorAllocFail devFreeEx connAssignEx
          Change.empty = some (Except.ok (dev', c', ch2))
        ∧ c'.cursor_plane = none ∧ c'.cursor_buffers = none :=
  (assign_planes_primary_and_cursor envCursorAllocFail devFreeEx connAssignEx
      Change.empty 40 crtcEx modeEx rfl (by decide) rfl
      (by
        intro f w h cf e hE
        cases cf
        · exact absurd hE (by simp [envCursorAllocFail])
        · simp [envCursorAllocFail] at hE
          subst hE
          decide)).2.2
    planeFreeEx (bufEx, bufEx2) MetalError.ScanoutBuffer (by decide) rfl rfl

/-- The preserve set: connectors, crtcs and planes a reconfiguration pass
must leave untouched. Embeds Preserve from src/backends/metal/video.rs
(lines 872-877); the hash sets become lists. -/
structure Preserve where
  connectors : List Nat
  crtcs : List Nat
  planes : List Nat
deriving DecidableEq, Repr

/-- The plane loop of MetalBackend::reset_planes (lines 1291-1304):
non-preserved planes have their cached crtc binding and assigned flag
cleared and crtc-id 0 / fb-id 0 / in-fence-fd -1 staged. -/
def resetPlanesList (preserve : Preserve) :
    List MetalPlane → Change → List MetalPlane × Change
  | [], ch => ([], ch)
  | p :: rest, ch =>
    if p.id ∈ preserve.planes then
      let r := resetPlanesList preserve rest ch
      (p :: r.1, r.2)
    else
      let p' := { p with crtc_id := { p.crtc_id with value := 0 }, assigned := false }
      let ch' := ch.change_object p.id
        [(p.crtc_id.id, 0), (p.fb_id, 0), (p.in_fence_fd, 2 ^ 64 - 1)]
      let r := resetPlanesList preserve rest ch'
      (p' :: r.1, r.2)

/-- Embeds MetalBackend::reset_planes (lines 1291-1304). -/
def reset_planes (d : MetalDrmDeviceData) (ch : Change) (preserve : Preserve) :
    MetalDrmDeviceData × Change :=
  let r := resetPlanesList preserve d.dev.planes ch
  ({ d with dev := { d.dev with planes := r.1 } }, r.2)

/-- The connector loop of MetalBackend::reset_connectors_and_crtcs
(lines 1312-1325): non-preserved connectors lose their plane and crtc
bindings and have crtc-id 0 staged. -/
def resetConnectorsList (preserve : Preserve) :
    List MetalConnector → Change → List MetalConnector × Change
  | [], ch => ([], ch)
  | c :: rest, ch =>
    if c.id ∈ preserve.connectors then
      let r := resetConnectorsList preserve rest ch
      (c :: r.1, r.2)
    else
      let c' := { c with
        primary_plane := none
        cursor_plane := none
        cursor_enabled := false
        crtc := none
        display := { c.display with
          crtc_id := { c.display.crtc_id with value := 0 } } }
      let ch' := ch.change_object c.id [(c.display.crtc_id.id, 0)]
      let r := resetConnectorsList preserve rest ch'
      (c' :: r.1, r.2)

/-- The crtc loop of MetalBackend::reset_connectors_and_crtcs
(lines 1326-1338): non-preserved crtcs are deactivated, lose their
connector back-reference and mode blob, and have active 0 / mode-id 0 /
out-fence-ptr 0 staged. -/
def resetCrtcsList (preserve : Preserve) :
    List MetalCrtc → Change → List MetalCrtc × Change
  | [], ch => ([], ch)
  | t :: rest, ch =>
    if t.id ∈ preserve.crtcs then
      let r := resetCrtcsList preserve rest ch
      (t :: r.1, r.2)
    else
      let t' := { t with
        connector := none
        active := { t.active with value := false }
        mode_id := { t.mode_id with value := 0 } }
      let ch' := ch.change_object t.id
        [(t.active.id, 0), (t.mode_id.id, 0), (t.out_fence_ptr, 0)]
      let r := resetCrtcsList preserve rest ch'
      (t' :: r.1, r.2)

/-- Embeds MetalBackend::reset_connectors_and_crtcs (lines 1306-1339). -/
def reset_connectors_and_crtcs (d : MetalDrmDeviceData) (ch : Change)
    (preserve : Preserve) : MetalDrmDeviceData × Change :=
  let rc := resetConnectorsList preserve d.connectors ch
  let rt := resetCrtcsList preserve d.dev.crtcs rc.2
  ({ connectors := rc.1, dev := { d.dev with crtcs := rt.1 } }, rt.2)

/-- The reset phase of the full modeset path of init_drm_device
(lines 1457 and 1466): reset the connectors and crtcs, then the planes,
staging everything into one change builder. -/
def resetPhase (d : MetalDrmDeviceData) (preserve : Preserve) :
    MetalDrmDeviceData × Change :=
  let r1 := reset_connectors_and_crtcs d Change.empty preserve
  reset_planes r1.1 r1.2 preserve

/-- The per-connector checks of MetalBackend::validate_preserve
(lines 1349-1398): a preserved connector with a bound crtc is rejected
when its cached connector crtc-id disagrees with the bound crtc, its crtc
has no or a different mode than desired, its crtc is inactive, or its
primary/cursor plane is bound to a different crtc. -/
def connectorPreservable (env : KernelEnv) (dev : MetalDrmDevice)
    (c : MetalConnector) : Bool :=
  match c.crtc with
  | none => true
  | some cid =>
    match dev.findCrtc cid with
    | none => false
    | some crtc =>
      decide (c.display.crtc_id.value = crtc.id)
        && (match c.display.mode with
            | none => true
            | some mode =>
              decide (crtc.mode_id.value ≠ 0)
                && (match env.getblob crtc.mode_id.value with
                    | some cur => modes_equal mode cur
                    | none => false))
        && crtc.active.value
        && (match c.primary_plane with
            | some pid =>
              match dev.findPlane pid with
              | some p => decide (p.crtc_id.value = crtc.id)
              | none => true
            | none => true)
        && (match c.cursor_plane with
            | some pid =>
              match dev.findPlane pid with
              | some p => decide (p.crtc_id.value = 0 ∨ p.crtc_id.value = crtc.id)
              | none => true
            | none => true)

/-- Embeds MetalBackend::validate_preserve (lines 1341-1416): connectors
that no longer exist or fail the checks are dropped from the preserve set,
then the planes and crtcs of the remaining preserved connectors are folded
into it so the reset phase skips them. -/
def validate_preserve (env : KernelEnv) (d : MetalDrmDeviceData)
    (preserve : Preserve) : Preserve :=
  let conns := preserve.connectors.filter (fun i =>
    match d.connectors.find? (fun c => c.id == i) with
    | some c => connectorPreservable env d.dev c
    | none => false)
  let planes := d.connectors.foldl (fun acc c =>
    (if c.id ∈ conns then
      (match c.primary_plane with | some p => [p] | none => [])
        ++ (match c.cursor_plane with | some p => [p] | none => [])
    else []) ++ acc) preserve.planes
  let crtcs := d.connectors.foldl (fun acc c =>
    (if c.id ∈ conns then
      (match c.crtc with | some t => [t] | none => [])
    else []) ++ acc) preserve.crtcs
  { connectors := conns, crtcs := crtcs, planes := planes }

theorem change_object_objects (ch : Change) (obj : Nat)
    (pairs : List (Nat × Nat)) :
    ∀ x ∈ (ch.change_object obj pairs).objects, x ∈ ch.objects ∨ x = obj := by
  intro x hx
  unfold Change.change_object at hx
  by_cases hp : pairs.length > 0
  · rw [if_pos hp] at hx
    by_cases hl : ch.objects.getLast? = some obj
    · rw [if_pos hl] at hx
      exact Or.inl hx
    · rw [if_neg hl] at hx
      rcases List.mem_append.mp hx with h | h
      · exact Or.inl h
      · exact Or.inr (by simpa using h)
  · rw [if_neg hp] at hx
    exact Or.inl hx

theorem resetPlanesList_objects (pres : Preserve) (ps : List MetalPlane) :
    ∀ (ch : Change), ∀ x ∈ (resetPlanesList pres ps ch).2.objects,
      x ∈ ch.objects ∨ (x ∈ ps.map MetalPlane.id ∧ x ∉ pres.planes) := by
  induction ps with
  | nil => intro ch x hx; exact Or.inl hx
  | cons p rest ih =>
    intro ch x hx
    by_cases hm : p.id ∈ pres.planes
    · simp only [resetPlanesList, if_pos hm] at hx
      rcases ih ch x hx with h | ⟨h1, h2⟩
      · exact Or.inl h
      · exact Or.inr ⟨by simp [h1], h2⟩
    · simp only [resetPlanesList, if_neg hm] at hx
      rcases ih _ x hx with h | ⟨h1, h2⟩
      · rcases change_object_objects ch p.id _ x h with h3 | rfl
        · exact Or.inl h3
        · exact Or.inr ⟨by simp, hm⟩
      · exact Or.inr ⟨by simp [h1], h2⟩

theorem resetPlanesList_preserved (pres : Preserve) (ps : List MetalPlane) :
    ∀ (ch : Change), ∀ p ∈ ps, p.id ∈ pres.planes →
      p ∈ (resetPlanesList pres ps ch).1 := by
  induction ps with
  | nil => intro ch p hp; simp at hp
  | cons q rest ih =>
    intro ch p hp hm
    rcases List.mem_cons.mp hp with rfl | hp
    · simp only [resetPlanesList, if_pos hm]
      simp
    · by_cases hq : q.id ∈ pres.planes
      · simp only [resetPlanesList, if_pos hq]
        exact List.mem_cons_of_mem _ (ih ch p hp hm)
      · simp only [resetPlanesList, if_neg hq]
        exact List.mem_cons_of_mem _ (ih _ p hp hm)

theorem resetConnectorsList_objects (pres : Preserve) (cs : List MetalConnector) :
    ∀ (ch : Change), ∀ x ∈ (resetConnectorsList pres cs ch).2.objects,
      x ∈ ch.objects ∨ (x ∈ cs.map MetalConnector.id ∧ x ∉ pres.connectors) := by
  induction cs with
  | nil => intro ch x hx; exact Or.inl hx
  | cons c rest ih =>
    intro ch x hx
    by_cases hm : c.id ∈ pres.connectors
    · simp only [resetConnectorsList, if_pos hm] at hx
      rcases ih ch x hx with h | ⟨h1, h2⟩
      · exact Or.inl h
      · exact Or.inr ⟨by simp [h1], h2⟩
    · simp only [resetConnectorsList, if_neg hm] at hx
      rcases ih _ x hx with h | ⟨h1, h2⟩
      · rcases change_object_objects ch c.id _ x h with h3 | rfl
        · exact Or.inl h3
        · exact Or.inr ⟨by simp, hm⟩
      · exact Or.inr ⟨by simp [h1], h2⟩

theorem resetConnectorsList_preserved (pres : Preserve) (cs : List MetalConnector) :
    ∀ (ch : Change), ∀ c ∈ cs, c.id ∈ pres.connectors →
      c ∈ (resetConnectorsList pres cs ch).1 := by
  induction cs with
  | nil => intro ch c hc; simp at hc
  | cons q rest ih =>
    intro ch c hc hm
    rcases List.mem_cons.mp hc with rfl | hc
    · simp only [resetConnectorsList, if_pos hm]
      simp
    · by_cases hq : q.id ∈ pres.connectors
      · simp only [resetConnectorsList, if_pos hq]
        exact List.mem_cons_of_mem _ (ih ch c hc hm)
      · simp only [resetConnectorsList, if_neg hq]
        exact List.mem_cons_of_mem _ (ih _ c hc hm)

theorem resetCrtcsList_objects (pres : Preserve) (ts : List MetalCrtc) :
    ∀ (ch : Change), ∀ x ∈ (resetCrtcsList pres ts ch).2.objects,
      x ∈ ch.objects ∨ (x ∈ ts.map MetalCrtc.id ∧ x ∉ pres.crtcs) := by
  induction ts with
  | nil => intro ch x hx; exact Or.inl hx
  | cons t rest ih =>
    intro ch x hx
    by_cases hm : t.id ∈ pres.crtcs
    · simp only [resetCrtcsList, if_pos hm] at hx
      rcases ih ch x hx with h | ⟨h1, h2⟩
      · exact Or.inl h
      · exact Or.inr ⟨by simp [h1], h2⟩
    · simp only [resetCrtcsList, if_neg hm] at hx
      rcases ih _ x hx with h | ⟨h1, h2⟩
      · rcases change_object_objects ch t.id _ x h with h3 | rfl
        · exact Or.inl h3
        · exact Or.inr ⟨by simp, hm⟩
      · exact Or.inr ⟨by simp [h1], h2⟩

theorem resetCrtcsList_preserved (pres : Preserve) (ts : List MetalCrtc) :
    ∀ (ch : Change), ∀ t ∈ ts, t.id ∈ pres.crtcs →
      t ∈ (resetCrtcsList pres ts ch).1 := by
  induction ts with
  | nil => intro ch t ht; simp at ht
  | cons q rest ih =>
    intro ch t ht hm
    rcases List.mem_cons.mp ht with rfl | ht
    · simp only [resetCrtcsList, if_pos hm]
      simp
    · by_cases hq : q.id ∈ pres.crtcs
      · simp only [resetCrtcsList, if_pos hq]
        exact List.mem_cons_of_mem _ (ih ch t ht hm)
      · simp only [resetCrtcsList, if_neg hq]
        exact List.mem_cons_of_mem _ (ih _ t ht hm)

theorem foldl_append_mem {α β : Type} (g : β → List α) (l : List β)
    (init : List α) (x : α)
    (h : x ∈ l.foldl (fun acc c => g c ++ acc) init) :
    x ∈ init ∨ ∃ c ∈ l, x ∈ g c := by
  induction l generalizing init with
  | nil => exact Or.inl h
  | cons c rest ih =>
    simp only [List.foldl_cons] at h
    rcases ih (g c ++ init) h with h2 | ⟨c2, hc2, hx⟩
    · rcases List.mem_append.mp h2 with h3 | h3
      · exact Or.inr ⟨c, by simp, h3⟩
      · exact Or.inl h3
    · exact Or.inr ⟨c2, List.mem_cons_of_mem _ hc2, hx⟩

theorem validate_connectors_ids (env : KernelEnv) (d : MetalDrmDeviceData)
    (p0 : Preserve) :
    ∀ x ∈ (validate_preserve env d p0).connectors,
      x ∈ p0.connectors ∧ ∃ c ∈ d.connectors, c.id = x := by
  intro x hx
  simp only [validate_preserve] at hx
  rw [List.mem_filter] at hx
  obtain ⟨hmem, hpred⟩ := hx
  refine ⟨hmem, ?_⟩
  cases hf : d.connectors.find? (fun c => c.id == x) with
  | none => rw [hf] at hpred; cases hpred
  | some c =>
    have hc := List.mem_of_find?_eq_some hf
    have hcx := List.find?_some hf
    exact ⟨c, hc, by simpa using hcx⟩

theorem validate_crtcs_mem (env : KernelEnv) (d : MetalDrmDeviceData)
    (p0 : Preserve) :
    ∀ x ∈ (validate_preserve env d p0).crtcs,
      x ∈ p0.crtcs ∨ ∃ c ∈ d.connectors, c.crtc = some x := by
  intro x hx
  simp only [validate_preserve] at hx
  rcases foldl_append_mem _ _ _ _ hx with h | ⟨c, hc, hg⟩
  · exact Or.inl h
  · right
    refine ⟨c, hc, ?_⟩
    split at hg
    · cases hcrtc : c.crtc with
      | none => rw [hcrtc] at hg; simp at hg
      | some t =>
        rw [hcrtc] at hg
        simp at hg
        rw [hg]
    · simp at hg

theorem validate_planes_mem (env : KernelEnv) (d : MetalDrmDeviceData)
    (p0 : Preserve) :
    ∀ x ∈ (validate_preserve env d p0).planes,
      x ∈ p0.planes
        ∨ ∃ c ∈ d.connectors,
            (c.primary_plane = some x ∨ c.cursor_plane = some x) := by
  intro x hx
  simp only [validate_preserve] at hx
  rcases foldl_append_mem _ _ _ _ hx with h | ⟨c, hc, hg⟩
  · exact Or.inl h
  · right
    refine ⟨c, hc, ?_⟩
    split at hg
    · rcases List.mem_append.mp hg with hg | hg
      · left
        cases hpp : c.primary_plane with
        | none => rw [hpp] at hg; simp at hg
        | some p =>
          rw [hpp] at hg
          simp at hg
          rw [hg]
      · right
        cases hcp : c.cursor_plane with
        | none => rw [hcp] at hg; simp at hg
        | some p =>
          rw [hcp] at hg
          simp at hg
          rw [hg]
    · simp at hg

/-- C5: for a preserve set that passes validate_preserve (with the crtc and
plane components initially empty, as at every call site), none of its
connectors, crtcs or planes appear as object ids in the property writes
staged by the reset phase (reset_connectors_and_crtcs then reset_planes),
and the cached state of every preserved connector, crtc and plane —
bindings, active flags, assigned flags — is left unchanged by that phase.
The hypotheses state device well-formedness: bound references resolve
inside the device and hardware object ids are globally distinct, as the
kernel guarantees. -/
theorem validated_preserve_untouched_by_reset
    (env : KernelEnv) (d : MetalDrmDeviceData) (p0 : Preserve)
    (hcrtcs0 : p0.crtcs = []) (hplanes0 : p0.planes = [])
    (href1 : ∀ c ∈ d.connectors, ∀ t, c.crtc = some t →
        t ∈ d.dev.crtcs.map MetalCrtc.id)
    (href2 : ∀ c ∈ d.connectors, ∀ p, c.primary_plane = some p →
        p ∈ d.dev.planes.map MetalPlane.id)
    (href3 : ∀ c ∈ d.connectors, ∀ p, c.cursor_plane = some p →
        p ∈ d.dev.planes.map MetalPlane.id)
    (hnodup : (d.connectors.map MetalConnector.id
        ++ (d.dev.crtcs.map MetalCrtc.id ++ d.dev.planes.map MetalPlane.id)).Nodup) :
    (∀ oid ∈ (resetPhase d (validate_preserve env d p0)).2.objects,
        oid ∉ (validate_preserve env d p0).connectors
          ∧ oid ∉ (validate_preserve env d p0).crtcs
          ∧ oid ∉ (validate_preserve env d p0).planes)
      ∧ (∀ c ∈ d.connectors,
          c.id ∈ (validate_preserve env d p0).connectors →
          c ∈ (resetPhase d (validate_preserve env d p0)).1.connectors)
      ∧ (∀ t ∈ d.dev.crtcs,
          t.id ∈ (validate_preserve env d p0).crtcs →
          t ∈ (resetPhase d (validate_preserve env d p0)).1.dev.crtcs)
      ∧ (∀ p ∈ d.dev.planes,
          p.id ∈ (validate_preserve env d p0).planes →
          p ∈ (resetPhase d (validate_preserve env d p0)).1.dev.planes) := by
  obtain ⟨-, hnod2, hdisjA⟩ := List.nodup_append.mp hnodup
  obtain ⟨-, -, hdisjBC⟩ := List.nodup_append.mp hnod2
  have hdisjAB : (d.connectors.map MetalConnector.id).Disjoint
      (d.dev.crtcs.map MetalCrtc.id) :=
    fun a ha hb => hdisjA ha (List.mem_append.mpr (Or.inl hb))
  have hdisjAC : (d.connectors.map MetalConnector.id).Disjoint
      (d.dev.planes.map MetalPlane.id) :=
    fun a ha hb => hdisjA ha (List.mem_append.mpr (Or.inr hb))
  have hnc : ∀ oid, oid ∈ d.dev.crtcs.map MetalCrtc.id ∨
      oid ∈ d.dev.planes.map MetalPlane.id →
      oid ∉ (validate_preserve env d p0).connectors := by
    intro oid hor hcontra
    obtain ⟨-, c, hc, hcid⟩ := validate_connectors_ids env d p0 oid hcontra
    have hA : oid ∈ d.connectors.map MetalConnector.id :=
      List.mem_map.mpr ⟨c, hc, hcid⟩
    rcases hor with h | h
    · exact hdisjAB hA h
    · exact hdisjAC hA h
  have hnt : ∀ oid, oid ∈ d.connectors.map MetalConnector.id ∨
      oid ∈ d.dev.planes.map MetalPlane.id →
      oid ∉ (validate_preserve env d p0).crtcs := by
    intro oid hor hcontra
    rcases validate_crtcs_mem env d p0 oid hcontra with h0 | ⟨c, hc, hcrtc⟩
    · rw [hcrtcs0] at h0; simp at h0
    · have hB : oid ∈ d.dev.crtcs.map MetalCrtc.id := href1 c hc oid hcrtc
      rcases hor with h | h
      · exact hdisjAB h hB
      · exact hdisjBC hB h
  have hnp : ∀ oid, oid ∈ d.connectors.map MetalConnector.id ∨
      oid ∈ d.dev.crtcs.map MetalCrtc.id →
      oid ∉ (validate_preserve env d p0).planes := by
    intro oid hor hcontra
    rcases validate_planes_mem env d p0 oid hcontra with h0 | ⟨c, hc, hpc⟩
    · rw [hplanes0] at h0; simp at h0
    · have hC : oid ∈ d.dev.planes.map MetalPlane.id := by
        rcases hpc with h | h
        · exact href2 c hc oid h
        · exact href3 c hc oid h
      rcases hor with h | h
      · exact hdisjAC h hC
      · exact hdisjBC h hC
  refine ⟨?_, ?_, ?_, ?_⟩
  · intro oid hoid
    have hoid' : oid ∈ (resetPlanesList (validate_preserve env d p0) d.dev.planes
        (resetCrtcsList (validate_preserve env d p0) d.dev.crtcs
          (resetConnectorsList (validate_preserve env d p0) d.connectors
            Change.empty).2).2).2.objects := hoid
    rcases resetPlanesList_objects _ _ _ oid hoid' with h2 | ⟨hC, hCn⟩
    · rcases resetCrtcsList_objects _ _ _ oid h2 with h3 | ⟨hB, hBn⟩
      · rcases resetConnectorsList_objects _ _ _ oid h3 with h4 | ⟨hA, hAn⟩
        · simp [Change.empty] at h4
        · exact ⟨hAn, hnt oid (Or.inl hA), hnp oid (Or.inl hA)⟩
      · exact ⟨hnc oid (Or.inl hB), hBn, hnp oid (Or.inr hB)⟩
    · exact ⟨hnc oid (Or.inr hC), hnt oid (Or.inr hC), hCn⟩
  · intro c hc hmem
    exact resetConnectorsList_preserved _ _ _ c hc hmem
  · intro t ht hmem
    exact resetCrtcsList_preserved _ _ _ t ht hmem
  · intro p hp hmem
    exact resetPlanesList_preserved _ _ _ p hp hmem

/-- Display data whose cached crtc-id matches the bound crtc. -/
def ddPresEx : ConnectorDisplayData := { ddModeEx with crtc_id := ⟨70, 40⟩ }

/-- A fully bound connector that passes the preserve validation. -/
def connPresCheckEx : MetalConnector :=
  { connEx with
    crtc := some 40
    primary_plane := some 50
    cursor_plane := some 51
    display := ddPresEx }

/-- A concrete device-with-connectors record used by the witnesses. -/
def devDataPresEx : MetalDrmDeviceData :=
  { dev := devEx, connectors := [connPresCheckEx] }

/-- A preserve set naming the one connector, as handle_drm_change_ builds
it (crtcs and planes start empty). -/
def p0Ex : Preserve := { connectors := [30], crtcs := [], planes := [] }

/-- An environment whose blob store decodes blob 90 to the concrete mode. -/
def envBlobEx : KernelEnv :=
  { envOk with getblob := fun b => if b = 90 then some modeEx else none }

/-- C5 witness: validation keeps the concrete connector, and the theorem
applied at the concrete device shows the reset phase stages no write for
any preserved object. -/
theorem validated_preserve_witness :
    (validate_preserve envBlobEx devDataPresEx p0Ex).connectors = [30]
      ∧ (∀ oid ∈ (resetPhase devDataPresEx
            (validate_preserve envBlobEx devDataPresEx p0Ex)).2.objects,
          oid ∉ (validate_preserve envBlobEx devDataPresEx p0Ex).connectors
            ∧ oid ∉ (validate_preserve envBlobEx devDataPresEx p0Ex).crtcs
            ∧ oid ∉ (validate_preserve envBlobEx devDataPresEx p0Ex).planes) :=
  ⟨by decide,
    (validated_preserve_untouched_by_reset envBlobEx devDataPresEx p0Ex rfl rfl
      (by
        intro c hc t ht
        have hc2 : c = connPresCheckEx := by simpa [devDataPresEx] using hc
        subst hc2
        injection ht with h2
        subst h2
        decide)
      (by
        intro c hc p hp
        have hc2 : c = connPresCheckEx := by simpa [devDataPresEx] using hc
        subst hc2
        injection hp with h2
        subst h2
        decide)
      (by
        intro c hc p hp
        have hc2 : c = connPresCheckEx := by simpa [devDataPresEx] using hc
        subst hc2
        injection hp with h2
        subst h2
        decide)
      (by decide)).1⟩

/-- First Primary plane not yet claimed during the fast-path scan, from
the have_primary_plane loop of MetalBackend::can_use_current_drm_mode
(src/backends/metal/video.rs lines 1537-1543): used_planes.insert returns
true exactly when the plane was still unclaimed. -/
def findUnusedPrimary (dev : MetalDrmDevice) :
    List Nat → List Nat → Option Nat
  | [], _ => none
  | p :: rest, used =>
    match dev.findPlane p with
    | some plane =>
      if plane.ty = PlaneType.Primary ∧ plane.id ∉ used then some plane.id
      else findUnusedPrimary dev rest used
    | none => findUnusedPrimary dev rest used

/-- The connector loop of MetalBackend::can_use_current_drm_mode
(lines 1493-1548), carrying the used_crtcs and used_planes sets. Any
violation returns false immediately; none models the crtcs.get unwrap
panic on a dangling crtc id. The crtc/connector back-reference writes of
lines 1509-1510, which nothing later in the function reads, are not part
of the modelled state. -/
def canUseLoop (env : KernelEnv) (dev : MetalDrmDevice) :
    List MetalConnector → List Nat → List Nat → Option (Bool × List Nat × List Nat)
  | [], usedc, used => some (true, usedc, used)
  | c :: rest, usedc, used =>
    if c.enabled = false ∨ c.display.connection ≠ ConnectorStatus.Connected then
      if c.display.crtc_id.value ≠ 0 then some (false, usedc, used)
      else canUseLoop env dev rest usedc used
    else
      if c.display.crtc_id.value = 0 then some (false, usedc, used)
      else
        match dev.findCrtc c.display.crtc_id.value with
        | none => none
        | some crtc =>
          if crtc.active.value = false then some (false, usedc, used)
          else
            match c.display.mode with
            | none => some (false, usedc, used)
            | some mode =>
              match env.getblob crtc.mode_id.value with
              | none => some (false, usedc, used)
              | some current =>
                if modes_equal mode current = false then some (false, usedc, used)
                else
                  match findUnusedPrimary dev crtc.possible_planes used with
                  | none => some (false, usedc, used)
                  | some pid =>
                    canUseLoop env dev rest (c.display.crtc_id.value :: usedc)
                      (pid :: used)

/-- The deactivation change staged after a successful scan (lines
1550-1560): every crtc gets its out-fence pointer cleared, and crtcs used
by no connector that are still active additionally get active 0. -/
def deactivateCrtcsChange (dev : MetalDrmDevice) (usedCrtcs : List Nat) : Change :=
  dev.crtcs.foldl (fun ch t =>
    ch.change_object t.id
      (if t.id ∉ usedCrtcs ∧ t.active.value = true then
        [(t.active.id, 0), (t.out_fence_ptr, 0)]
      else [(t.out_fence_ptr, 0)])) Change.empty

/-- Embeds MetalBackend::can_use_current_drm_mode (lines 1489-1567): the
connector scan followed by the unused-crtc deactivation commit, whose
outcome is the kernel's commit response. -/
def can_use_current_drm_mode (env : KernelEnv) (d : MetalDrmDeviceData) :
    Option Bool :=
  match canUseLoop env d.dev d.connectors [] [] with
  | none => none
  | some (false, _, _) => some false
  | some (true, usedc, _) =>
    let _deactivation := deactivateCrtcsChange d.dev usedc
    some (decide (env.commit = none))

/-- Modelled from the spec: the predicate of the claim's words, quantified
only over enabled and connected connectors — for each, in scan order: a
bound crtc that exists and is active, a current mode blob decoding to a
mode structurally equal to the desired mode, and a still-unclaimed Primary
plane among the crtc's possible planes. -/
def specReuseLoop (env : KernelEnv) (dev : MetalDrmDevice) :
    List MetalConnector → List Nat → Bool
  | [], _ => true
  | c :: rest, used =>
    if c.display.crtc_id.value = 0 then false
    else
      match dev.findCrtc c.display.crtc_id.value with
      | none => false
      | some crtc =>
        if crtc.active.value = false then false
        else
          match c.display.mode with
          | none => false
          | some mode =>
            match env.getblob crtc.mode_id.value with
            | none => false
            | some current =>
              if modes_equal mode current = false then false
              else
                match findUnusedPrimary dev crtc.possible_planes used with
                | none => false
                | some pid => specReuseLoop env dev rest (pid :: used)

/-- Modelled from the spec: the claim's reuse condition over the enabled
and connected connectors of the device. -/
def can_reuse_spec (env : KernelEnv) (d : MetalDrmDeviceData) : Bool :=
  specReuseLoop env d.dev
    (d.connectors.filter (fun c =>
      c.enabled && decide (c.display.connection = ConnectorStatus.Connected))) []

theorem canUseLoop_true_iff (env : KernelEnv) (dev : MetalDrmDevice) :
    ∀ (l : List MetalConnector) (usedc used : List Nat),
      (∃ uc up, canUseLoop env dev l usedc used = some (true, uc, up))
        ↔ ((∀ c ∈ l, (c.enabled = false
              ∨ c.display.connection ≠ ConnectorStatus.Connected) →
              c.display.crtc_id.value = 0)
            ∧ specReuseLoop env dev (l.filter (fun c =>
                c.enabled
                  && decide (c.display.connection = ConnectorStatus.Connected)))
                used = true) := by
  intro l
  induction l with
  | nil =>
    intro usedc used
    constructor
    · intro _
      exact ⟨by simp, rfl⟩
    · intro _
      exact ⟨usedc, used, rfl⟩
  | cons c rest ih =>
    intro usedc used
    by_cases hdis : c.enabled = false
        ∨ c.display.connection ≠ ConnectorStatus.Connected
    · have hfilt : (c :: rest).filter (fun c =>
          c.enabled && decide (c.display.connection = ConnectorStatus.Connected))
          = rest.filter (fun c =>
            c.enabled && decide (c.display.connection = ConnectorStatus.Connected)) := by
        rcases hdis with h | h <;> simp [List.filter_cons, h]
      rw [hfilt]
      by_cases h0 : c.display.crtc_id.value ≠ 0
      · constructor
        · rintro ⟨uc, up, h⟩
          simp only [canUseLoop, if_pos hdis, if_pos h0] at h
          simp at h
        · rintro ⟨hall, -⟩
          exact absurd (hall c (by simp) hdis) h0
      · simp only [canUseLoop, if_pos hdis, if_neg h0]
        rw [ih usedc used]
        constructor
        · rintro ⟨hall, hspec⟩
          refine ⟨?_, hspec⟩
          intro c2 h2 hd2
          rcases List.mem_cons.mp h2 with rfl | h2
          · simpa using h0
          · exact hall c2 h2 hd2
        · rintro ⟨hall, hspec⟩
          exact ⟨fun c2 h2 hd2 => hall c2 (List.mem_cons_of_mem _ h2) hd2, hspec⟩
    · have hen : c.enabled = true := by
        rcases Bool.eq_false_or_eq_true c.enabled with h | h
        · exact h
        · exact absurd (Or.inl h) hdis
      have hconn : c.display.connection = ConnectorStatus.Connected := by
        by_contra hne
        exact hdis (Or.inr hne)
      have hfilt : (c :: rest).filter (fun c =>
          c.enabled && decide (c.display.connection = ConnectorStatus.Connected))
          = c :: rest.filter (fun c =>
            c.enabled && decide (c.display.connection = ConnectorStatus.Connected)) := by
        simp [List.filter_cons, hen, hconn]
      rw [hfilt]
      simp only [canUseLoop, specReuseLoop, if_neg hdis]
      by_cases h0 : c.display.crtc_id.value = 0
      · simp [h0]
      · simp only [if_neg h0, if_pos h0]
        cases hfc : dev.findCrtc c.display.crtc_id.value with
        | none => simp [h0]
        | some crtc =>
          by_cases hact : crtc.active.value = false
          · simp [h0, hact]
          · simp only [if_neg hact]
            cases hmode : c.display.mode with
            | none => simp [h0]
            | some mode =>
              cases hblob : env.getblob crtc.mode_id.value with
              | none => simp [h0]
              | some current =>
                by_cases heq : modes_equal mode current = false
                · simp [h0, heq]
                · simp only [if_neg heq]
                  cases hfup : findUnusedPrimary dev crtc.possible_planes used with
                  | none => simp [h0]
                  | some pid =>
                    simp only [if_neg h0]
                    rw [ih (c.display.crtc_id.value :: usedc) (pid :: used)]
                    constructor
                    · rintro ⟨hall, hspec⟩
                      refine ⟨?_, hspec⟩
                      intro c2 h2 hd2
                      rcases List.mem_cons.mp h2 with rfl | h2
                      · exact absurd hd2 hdis
                      · exact hall c2 h2 hd2
                    · rintro ⟨hall, hspec⟩
                      exact ⟨fun c2 h2 hd2 =>
                        hall c2 (List.mem_cons_of_mem _ h2) hd2, hspec⟩

/-- C1 (amended): the fast path returns true iff every enabled and
connected connector passes the reuse checks of the claim (bound existing
active crtc, current mode blob structurally equal to the desired mode, a
still-unclaimed Primary plane among the crtc's possible planes), AND
every connector that is disabled or not connected has no crtc currently
assigned, AND the crtc-deactivation commit issued at the end succeeds. -/
theorem can_use_current_drm_mode_iff (env : KernelEnv) (d : MetalDrmDeviceData) :
    can_use_current_drm_mode env d = some true
      ↔ ((∀ c ∈ d.connectors,
            (c.enabled = false
              ∨ c.display.connection ≠ ConnectorStatus.Connected) →
            c.display.crtc_id.value = 0)
          ∧ can_reuse_spec env d = true
          ∧ env.commit = none) := by
  unfold can_use_current_drm_mode can_reuse_spec
  cases hloop : canUseLoop env d.dev d.connectors [] [] with
  | none =>
    constructor
    · intro h
      simp at h
    · rintro ⟨hall, hspec, -⟩
      obtain ⟨uc, up, h⟩ :=
        (canUseLoop_true_iff env d.dev d.connectors [] []).mpr ⟨hall, hspec⟩
      rw [hloop] at h
      cases h
  | some r =>
    obtain ⟨b, uc, up⟩ := r
    cases b with
    | false =>
      constructor
      · intro h
        simp at h
      · rintro ⟨hall, hspec, -⟩
        obtain ⟨uc2, up2, h⟩ :=
          (canUseLoop_true_iff env d.dev d.connectors [] []).mpr ⟨hall, hspec⟩
        rw [hloop] at h
        simp at h
    | true =>
      constructor
      · intro h
        have hcn : env.commit = none := by simpa using h
        obtain ⟨hall, hspec⟩ :=
          (canUseLoop_true_iff env d.dev d.connectors [] []).mp ⟨uc, up, hloop⟩
        exact ⟨hall, hspec, hcn⟩
      · rintro ⟨-, -, hcn⟩
        simp [hcn]

/-- A disabled connector that still has a crtc assigned in its cached
connector properties. -/
def connDisabledEx : MetalConnector :=
  { connEx with enabled := false, display := ddPresEx }

/-- A device whose only connector is disabled but still bound to a crtc. -/
def devDisabledEx : MetalDrmDeviceData :=
  { dev := devEx, connectors := [connDisabledEx] }

/-- C1 counterexample: a device whose only connector is disabled but still
has an assigned crtc makes can_use_current_drm_mode return false even
though the claim's condition — quantified only over enabled and connected
connectors — is vacuously satisfied and the deactivation commit would
succeed; the claimed equivalence is therefore false as stated. -/
theorem can_use_current_drm_mode_counterexample :
    can_use_current_drm_mode envOk devDisabledEx = some false
      ∧ can_reuse_spec envOk devDisabledEx = true
      ∧ envOk.commit = none := by
  refine ⟨by decide, by decide, rfl⟩

/-- C1 witness: the amended equivalence applied to a concrete device whose
single connector passes all reuse checks. -/
theorem can_use_current_drm_mode_iff_witness :
    can_use_current_drm_mode envBlobEx devDataPresEx = some true :=
  (can_use_current_drm_mode_iff envBlobEx devDataPresEx).mpr
    ⟨by decide, by decide, rfl⟩

end Jay